import Mathlib

/-!
Verification development for the Fastmail MCP bridge (Python repository
`doronkatz/Fastmail-MCP`). The definitions below are a shallow embedding of
the JMAP transport (`src/fastmail_mcp/client/transport.py`), the client
facade (`src/fastmail_mcp/client/api.py`), the record models
(`src/fastmail_mcp/models/*.py`), the mail filter schema
(`src/fastmail_mcp/schemas/mail.py`), the command dispatcher
(`src/fastmail_mcp/server.py`) and the command registrations
(`src/fastmail_mcp/commands/*.py`).

Conventions of the embedding:
* JSON data is modelled by `JValue`; Python `dict.get`, truthiness and `or`
  are modelled by `dictGet`/`dictGetD`, `truthy` and `jOr`.
* Python exceptions are modelled by the `PyErr` type; fallible functions
  return `Except PyErr α`.
* The two HTTP endpoints (session discovery `GET`, JMAP `POST`) are external
  collaborators: their outcomes are passed in as `HttpResult` values, so a
  transport operation is a pure function of its inputs and the wire outcomes.
* `datetime.fromisoformat` is external stdlib code; it is passed in as a
  parameter `fromiso : String → Option PyDatetime`.  A `PyDatetime` carries
  its `isoformat()` rendering and an integer timeline key; Python's datetime
  comparison is modelled by comparing keys.
* The fixture collaborator (file loading in `api.py`) performs I/O; its
  successfully loaded records are passed in as a parameter (the spec treats
  fixture-file loading as an out-of-scope collaborator).
-/

/-- A JSON value as handled by the Python code (`response.json()` output,
request bodies, envelopes). Python dicts preserve insertion order, hence the
association-list representation. -/
inductive JValue where
  | jnull
  | jbool (b : Bool)
  | jnum (n : Int)
  | jstr (s : String)
  | jarr (elems : List JValue)
  | jobj (fields : List (String × JValue))

/-- First-match lookup in the fields of a Python dict (keys are unique in a
real dict, so first match is the match). -/
def lookupField : List (String × JValue) → String → Option JValue
  | [], _ => none
  | (k, v) :: rest, key => if k = key then some v else lookupField rest key

/-- `payload.get(key)` on a dict; `none` for a missing key.  (Calling `.get`
on a non-dict raises `AttributeError` in Python; the code under study only
reaches `.get` on decoded JSON objects, and non-dict payloads are mapped to
`none` here.) -/
def dictGet : JValue → String → Option JValue
  | .jobj fields, key => lookupField fields key
  | _, _ => none

/-- `payload.get(key, default)`. -/
def dictGetD (v : JValue) (key : String) (default : JValue) : JValue :=
  (dictGet v key).getD default

/-- Python truthiness of a JSON value: `None`, `False`, `0`, `""`, `[]`, and
an empty dict are falsy. -/
def truthy : JValue → Bool
  | .jnull => false
  | .jbool b => b
  | .jnum n => n != 0
  | .jstr s => s != ""
  | .jarr xs => !xs.isEmpty
  | .jobj fs => !fs.isEmpty

/-- Python `a or b` on JSON values. -/
def jOr (a b : JValue) : JValue :=
  if truthy a then a else b

/-- Python `str()` of a JSON value.  The list/dict branches stand in for
Python's `repr`, whose exact text the code never inspects; they are non-empty
strings, which is all that matters (truthiness of the result). -/
def pyStr : JValue → String
  | .jnull => "None"
  | .jbool true => "True"
  | .jbool false => "False"
  | .jnum n => toString n
  | .jstr s => s
  | .jarr _ => "[...]"
  | .jobj _ => "\x7b...\x7d"

/-- Elements of a JSON array (used after `data.get("list", [])`; iterating a
non-list raises in Python and does not occur on the shapes under study). -/
def jarrElems : JValue → List JValue
  | .jarr xs => xs
  | _ => []

/-- Is this value a dict (`isinstance(x, dict)`)? -/
def isObj : JValue → Bool
  | .jobj _ => true
  | _ => false

/-- The keys of a JSON object, in insertion order. -/
def jkeys : JValue → List String
  | .jobj fields => fields.map Prod.fst
  | _ => []

/-- `v == s` for a string literal `s` (the only equality comparisons the code
performs on decoded values are against string literals). -/
def jstrEq (v : JValue) (s : String) : Bool :=
  match v with
  | .jstr t => t = s
  | _ => false

/-- `FastmailTransportError` (transport.py): message, kind tag and optional
remediation hint. -/
structure TransportErr where
  message : String
  errorType : String
  troubleshooting : Option String
deriving Repr, DecidableEq

/-- The bare `FastmailTransportError(message)` constructor: default kind
`"TransportError"`, no hint. -/
def TransportErr.basic (msg : String) : TransportErr :=
  { message := msg, errorType := "TransportError", troubleshooting := none }

/-- `FastmailTransportError.auth_error`. -/
def TransportErr.authError (msg : String) : TransportErr :=
  { message := msg
    errorType := "AuthenticationError"
    troubleshooting := some
      ("Check FASTMAIL_USERNAME and FASTMAIL_APP_PASSWORD in .env. " ++
        "Ensure app password is valid and not expired.") }

/-- `FastmailTransportError.capability_error`. -/
def TransportErr.capabilityError (capability : String) : TransportErr :=
  { message := "JMAP capability '" ++ capability ++ "' not available"
    errorType := "CapabilityError"
    troubleshooting := some
      ("This account may not have access to the requested feature. " ++
        "Contact your Fastmail administrator or check account permissions.") }

/-- `FastmailTransportError.network_error`. -/
def TransportErr.networkError (msg : String) : TransportErr :=
  { message := msg
    errorType := "NetworkError"
    troubleshooting := some
      ("Check internet connectivity and Fastmail service status. " ++
        "Verify FASTMAIL_BASE_URL is correct.") }

/-- A raised Python exception, restricted to the classes the code under study
raises or catches. -/
inductive PyErr where
  | valueError (msg : String)
  | keyError (msg : String)
  | typeError (msg : String)
  | transport (e : TransportErr)
deriving Repr, DecidableEq

/-- `exc.__class__.__name__`, as used by the dispatcher's error envelope. -/
def PyErr.className : PyErr → String
  | .valueError _ => "ValueError"
  | .keyError _ => "KeyError"
  | .typeError _ => "TypeError"
  | .transport _ => "FastmailTransportError"

/-- `str(exc)`.  Python's `KeyError` renders as the `repr` of its argument,
hence the quotes. -/
def PyErr.toStr : PyErr → String
  | .valueError m => m
  | .keyError m => "'" ++ m ++ "'"
  | .typeError m => m
  | .transport e => e.message

/-- Kind tag of a transport failure carried by an `Except` result, if any. -/
def errTypeOf {α : Type} : Except PyErr α → Option String
  | .error (.transport e) => some e.errorType
  | _ => none

/-- Outcome of one HTTP round trip: a response (status, decoded JSON body,
raw body text) or a `requests.RequestException`. -/
inductive HttpResult where
  | resp (status : Nat) (body : JValue) (text : String)
  | exc (msg : String)

/-- JMAP capability URIs (transport.py module constants). -/
def JMAP_CORE_CAPABILITY : String := "urn:ietf:params:jmap:core"

def JMAP_MAIL_CAPABILITY : String := "urn:ietf:params:jmap:mail"

def JMAP_CONTACTS_CAPABILITY : String := "urn:ietf:params:jmap:contacts"

def JMAP_CALENDAR_CAPABILITY : String := "urn:ietf:params:jmap:calendars"

/-- The mutable session cache of a `JMAPTransport` instance
(`_api_url`, `_account_ids`). -/
structure TransportState where
  apiUrl : Option String := none
  accountIds : Option (List (String × String)) := none
deriving Repr, DecidableEq

/-- A transport with no resolved session yet (dataclass defaults). -/
def freshTransport : TransportState := {}

/-- The cache-hit test `if self._api_url and self._account_ids` (Python
truthiness: a non-empty string and a non-empty dict). -/
def sessionCached (st : TransportState) : Bool :=
  (match st.apiUrl with
    | some s => s != ""
    | none => false)
  && (match st.accountIds with
    | some l => !l.isEmpty
    | none => false)

/-- `{capability: str(account_id) for capability, account_id in
primary_accounts.items() if isinstance(account_id, str)}`. -/
def collectStringAccounts : List (String × JValue) → List (String × String)
  | [] => []
  | (cap, .jstr s) :: rest => (cap, s) :: collectStringAccounts rest
  | _ :: rest => collectStringAccounts rest

/-- Fields of a dict value (empty for non-dicts, guarded by `isObj` at the
call site). -/
def objFields : JValue → List (String × JValue)
  | .jobj fields => fields
  | _ => []

/-- `JMAPTransport._ensure_session`: on a cache hit return the state
unchanged; otherwise classify the discovery outcome and populate the cache.
`discovery` is the outcome the well-known-path `GET` would produce; on a
cache hit it is not consulted. -/
def ensure_session (st : TransportState) (discovery : HttpResult) :
    Except PyErr TransportState :=
  if sessionCached st then .ok st
  else
    match discovery with
    | .exc msg =>
        .error (.transport (TransportErr.networkError
          ("Failed to obtain JMAP session: " ++ msg)))
    | .resp status body _ =>
        if status = 401 then
          .error (.transport (TransportErr.authError
            ("Authentication failed (status " ++ toString status ++
              "). Check credentials.")))
        else if status ≥ 400 then
          .error (.transport (TransportErr.networkError
            ("JMAP session discovery failed with status " ++ toString status)))
        else
          let primaryAccounts := dictGetD body "primaryAccounts" (.jobj [])
          let apiUrl := (dictGet body "apiUrl").getD .jnull
          if !isObj primaryAccounts || !truthy apiUrl then
            .error (.transport (TransportErr.basic
              "Unable to locate JMAP account information in session"))
          else
            let accountIds := collectStringAccounts (objFields primaryAccounts)
            if accountIds.isEmpty then
              .error (.transport (TransportErr.basic
                "No JMAP accounts available for current credentials"))
            else
              .ok { apiUrl := some (pyStr apiUrl), accountIds := some accountIds }

/-- `JMAPTransport._account_for`: resolve the session, then look the
capability up; a missing (or falsy) account id raises the capability
error. -/
def account_for (st : TransportState) (discovery : HttpResult)
    (capability : String) : Except PyErr (TransportState × String) :=
  match ensure_session st discovery with
  | .error e => .error e
  | .ok st' =>
      match (st'.accountIds.getD []).lookup capability with
      | some accountId =>
          if accountId = "" then
            .error (.transport (TransportErr.capabilityError capability))
          else .ok (st', accountId)
      | none => .error (.transport (TransportErr.capabilityError capability))

/-- Request body of `_build_email_query`. -/
def emailQueryBody (accountId : String) (limit : Int) : JValue :=
  .jobj [("using", .jarr [.jstr JMAP_CORE_CAPABILITY, .jstr JMAP_MAIL_CAPABILITY]),
    ("methodCalls", .jarr [
      .jarr [.jstr "Email/query",
        .jobj [("accountId", .jstr accountId), ("limit", .jnum limit),
          ("sort", .jarr [.jobj [("property", .jstr "receivedAt"),
            ("isAscending", .jbool false)]])],
        .jstr "a"],
      .jarr [.jstr "Email/get",
        .jobj [("accountId", .jstr accountId),
          ("properties", .jarr [.jstr "id", .jstr "subject", .jstr "preview",
            .jstr "receivedAt"]),
          ("#ids", .jobj [("resultOf", .jstr "a"), ("name", .jstr "Email/query"),
            ("path", .jstr "/ids")])],
        .jstr "b"]])]

/-- `JMAPTransport._build_email_query`: the `limit` guard precedes account
resolution (and hence session discovery). -/
def build_email_query (limit : Int) (st : TransportState)
    (discovery : HttpResult) : Except PyErr (TransportState × JValue) :=
  if limit ≤ 0 then .error (.valueError "limit must be positive")
  else
    match account_for st discovery JMAP_MAIL_CAPABILITY with
    | .error e => .error e
    | .ok (st', accountId) => .ok (st', emailQueryBody accountId limit)

/-- Request body of `_build_contact_query`. -/
def contactQueryBody (accountId : String) (limit : Int) : JValue :=
  .jobj [("using", .jarr [.jstr JMAP_CORE_CAPABILITY, .jstr JMAP_CONTACTS_CAPABILITY]),
    ("methodCalls", .jarr [
      .jarr [.jstr "Contact/query",
        .jobj [("accountId", .jstr accountId), ("limit", .jnum limit),
          ("sort", .jarr [.jobj [("property", .jstr "name"),
            ("isAscending", .jbool true)]])],
        .jstr "a"],
      .jarr [.jstr "Contact/get",
        .jobj [("accountId", .jstr accountId),
          ("properties", .jarr [.jstr "id", .jstr "name", .jstr "emails"]),
          ("#ids", .jobj [("resultOf", .jstr "a"), ("name", .jstr "Contact/query"),
            ("path", .jstr "/ids")])],
        .jstr "b"]])]

/-- `JMAPTransport._build_contact_query`. -/
def build_contact_query (limit : Int) (st : TransportState)
    (discovery : HttpResult) : Except PyErr (TransportState × JValue) :=
  if limit ≤ 0 then .error (.valueError "limit must be positive")
  else
    match account_for st discovery JMAP_CONTACTS_CAPABILITY with
    | .error e => .error e
    | .ok (st', accountId) => .ok (st', contactQueryBody accountId limit)

/-- Request body of `_build_event_query`. -/
def eventQueryBody (accountId : String) (limit : Int) : JValue :=
  .jobj [("using", .jarr [.jstr JMAP_CORE_CAPABILITY, .jstr JMAP_CALENDAR_CAPABILITY]),
    ("methodCalls", .jarr [
      .jarr [.jstr "CalendarEvent/query",
        .jobj [("accountId", .jstr accountId), ("limit", .jnum limit),
          ("sort", .jarr [.jobj [("property", .jstr "start"),
            ("isAscending", .jbool true)]])],
        .jstr "a"],
      .jarr [.jstr "CalendarEvent/get",
        .jobj [("accountId", .jstr accountId),
          ("properties", .jarr [.jstr "id", .jstr "title", .jstr "start",
            .jstr "end"]),
          ("#ids", .jobj [("resultOf", .jstr "a"),
            ("name", .jstr "CalendarEvent/query"), ("path", .jstr "/ids")])],
        .jstr "b"]])]

/-- `JMAPTransport._build_event_query`. -/
def build_event_query (limit : Int) (st : TransportState)
    (discovery : HttpResult) : Except PyErr (TransportState × JValue) :=
  if limit ≤ 0 then .error (.valueError "limit must be positive")
  else
    match account_for st discovery JMAP_CALENDAR_CAPABILITY with
    | .error e => .error e
    | .ok (st', accountId) => .ok (st', eventQueryBody accountId limit)

/-- Request body of `_build_email_search_query` (the filter key is present
only when the filter object is truthy, i.e. a non-empty dict). -/
def emailSearchQueryBody (accountId : String) (limit offset : Int)
    (filterObj : JValue) (sortField : String) (sortAscending : Bool) : JValue :=
  .jobj [("using", .jarr [.jstr JMAP_CORE_CAPABILITY, .jstr JMAP_MAIL_CAPABILITY]),
    ("methodCalls", .jarr [
      .jarr [.jstr "Email/query",
        .jobj ([("accountId", .jstr accountId), ("limit", .jnum limit),
          ("position", .jnum offset),
          ("sort", .jarr [.jobj [("property", .jstr sortField),
            ("isAscending", .jbool sortAscending)]])] ++
          (if truthy filterObj then [("filter", filterObj)] else [])),
        .jstr "search"],
      .jarr [.jstr "Email/get",
        .jobj [("accountId", .jstr accountId),
          ("properties", .jarr [.jstr "id", .jstr "subject", .jstr "preview",
            .jstr "receivedAt", .jstr "from", .jstr "to", .jstr "keywords",
            .jstr "hasAttachment", .jstr "mailboxIds"]),
          ("#ids", .jobj [("resultOf", .jstr "search"),
            ("name", .jstr "Email/query"), ("path", .jstr "/ids")])],
        .jstr "get"]])]

/-- `JMAPTransport._build_email_search_query`. -/
def build_email_search_query (limit offset : Int) (filterObj : JValue)
    (sortField : String) (sortAscending : Bool) (st : TransportState)
    (discovery : HttpResult) : Except PyErr (TransportState × JValue) :=
  if limit ≤ 0 then .error (.valueError "limit must be positive")
  else
    match account_for st discovery JMAP_MAIL_CAPABILITY with
    | .error e => .error e
    | .ok (st', accountId) =>
        .ok (st', emailSearchQueryBody accountId limit offset filterObj
          sortField sortAscending)

/-- `JMAPTransport._build_message_get_query` (no limit, no query step). -/
def build_message_get_query (messageId : String) (properties : List String)
    (st : TransportState) (discovery : HttpResult) :
    Except PyErr (TransportState × JValue) :=
  match account_for st discovery JMAP_MAIL_CAPABILITY with
  | .error e => .error e
  | .ok (st', accountId) =>
      .ok (st', .jobj [("using", .jarr [.jstr JMAP_CORE_CAPABILITY,
          .jstr JMAP_MAIL_CAPABILITY]),
        ("methodCalls", .jarr [
          .jarr [.jstr "Email/get",
            .jobj [("accountId", .jstr accountId),
              ("ids", .jarr [.jstr messageId]),
              ("properties", .jarr (properties.map JValue.jstr))],
            .jstr "get"]])])

/-- `JMAPTransport._build_mailbox_query`. -/
def build_mailbox_query (limit offset : Int) (st : TransportState)
    (discovery : HttpResult) : Except PyErr (TransportState × JValue) :=
  if limit ≤ 0 then .error (.valueError "limit must be positive")
  else
    match account_for st discovery JMAP_MAIL_CAPABILITY with
    | .error e => .error e
    | .ok (st', accountId) =>
        .ok (st', .jobj [("using", .jarr [.jstr JMAP_CORE_CAPABILITY,
            .jstr JMAP_MAIL_CAPABILITY]),
          ("methodCalls", .jarr [
            .jarr [.jstr "Mailbox/query",
              .jobj [("accountId", .jstr accountId), ("limit", .jnum limit),
                ("position", .jnum offset),
                ("sort", .jarr [.jobj [("property", .jstr "name"),
                  ("isAscending", .jbool true)]])],
              .jstr "query"],
            .jarr [.jstr "Mailbox/get",
              .jobj [("accountId", .jstr accountId),
                ("properties", .jarr [.jstr "id", .jstr "name",
                  .jstr "parentId", .jstr "unreadEmails", .jstr "totalEmails"]),
                ("#ids", .jobj [("resultOf", .jstr "query"),
                  ("name", .jstr "Mailbox/query"), ("path", .jstr "/ids")])],
              .jstr "get"]])])

/-- `JMAPTransport._post`: classify the RPC `POST` outcome.  A
`RequestException` and a status ≥ 400 both raise the bare transport error
(default kind); otherwise the decoded JSON body is returned.  The request
`body` travels on the wire and does not influence the classification. -/
def post (postOutcome : HttpResult) (body : JValue) : Except PyErr JValue :=
  match postOutcome with
  | .exc msg => .error (.transport (TransportErr.basic
      ("JMAP request failed: " ++ msg)))
  | .resp status rbody text =>
      if status ≥ 400 then
        .error (.transport (TransportErr.basic
          ("JMAP request failed with status " ++ toString status ++ ": " ++ text)))
      else
        let _ := body
        .ok rbody

/-- Model of a Python `datetime` instant: `iso` is its `isoformat()`
rendering and `key` its position on the timeline (the code only compares
datetimes and renders them back with `isoformat`, so a totally ordered key
suffices). -/
structure PyDatetime where
  iso : String
  key : Int
deriving Repr, DecidableEq

/-- The record model `models/message.py::Message`. -/
structure Message where
  id : String
  subject : String
  snippet : String
  received_at : PyDatetime
deriving Repr, DecidableEq

/-- `Message.from_json`.  `fromiso` models the external
`datetime.fromisoformat`, returning `none` where Python raises
`ValueError`.  Calling it on a non-string raises `TypeError`. -/
def Message.from_json (fromiso : String → Option PyDatetime)
    (payload : JValue) : Except PyErr Message :=
  let receivedRaw := jOr (dictGetD payload "received_at" .jnull)
    (dictGetD payload "receivedAt" .jnull)
  if !truthy receivedRaw then
    .error (.valueError "Message payload missing received_at field")
  else
    match receivedRaw with
    | .jstr s =>
        match fromiso s with
        | none => .error (.valueError ("Invalid isoformat string: '" ++ s ++ "'"))
        | some receivedAt =>
            match dictGet payload "id" with
            | none => .error (.keyError "id")
            | some idVal =>
                .ok { id := pyStr idVal
                      subject := pyStr (dictGetD payload "subject" (.jstr ""))
                      snippet := pyStr (dictGetD payload "snippet" (.jstr ""))
                      received_at := receivedAt }
    | _ => .error (.typeError "fromisoformat: argument must be str")

/-- `Message.to_summary`. -/
def Message.to_summary (m : Message) : JValue :=
  .jobj [("id", .jstr m.id), ("subject", .jstr m.subject),
    ("snippet", .jstr m.snippet), ("received_at", .jstr m.received_at.iso)]

/-- The record model `models/contact.py::Contact`. -/
structure Contact where
  id : String
  display_name : String
  email : Option String
deriving Repr, DecidableEq

/-- `models/contact.py::_first_email`: the first entry with a truthy
`value`, rendered with `str` (entries that are not dicts have no `.get` and
would raise in Python; they yield no value here). -/
def first_email : List JValue → Option String
  | [] => none
  | entry :: rest =>
      let value := dictGetD entry "value" .jnull
      if truthy value then some (pyStr value) else first_email rest

/-- `Contact.from_json`: every field access is defensive, so a dict payload
with a list-shaped (or absent) `emails` field always parses. -/
def Contact.from_json (payload : JValue) : Except PyErr Contact :=
  match jOr (dictGetD payload "emails" .jnull) (.jarr []) with
  | .jarr entries =>
      .ok { id := pyStr (dictGetD payload "id" (.jstr ""))
            display_name := pyStr (dictGetD payload "name" (.jstr ""))
            email := first_email entries }
  | _ => .error (.typeError "'emails' value is not iterable")

/-- `Contact.to_summary`. -/
def Contact.to_summary (c : Contact) : JValue :=
  .jobj [("id", .jstr c.id), ("display_name", .jstr c.display_name),
    ("email", match c.email with | some e => .jstr e | none => .jnull)]

/-- The record model `models/event.py::CalendarEvent`. -/
structure CalendarEvent where
  id : String
  title : String
  starts_at : PyDatetime
  ends_at : Option PyDatetime
deriving Repr, DecidableEq

/-- `models/event.py::_parse_timestamp` (a bare `datetime.fromisoformat`). -/
def parse_timestamp (fromiso : String → Option PyDatetime) (value : JValue) :
    Except PyErr PyDatetime :=
  match value with
  | .jstr s =>
      match fromiso s with
      | none => .error (.valueError ("Invalid isoformat string: '" ++ s ++ "'"))
      | some dt => .ok dt
  | _ => .error (.typeError "fromisoformat: argument must be str")

/-- `CalendarEvent.from_json`. -/
def CalendarEvent.from_json (fromiso : String → Option PyDatetime)
    (payload : JValue) : Except PyErr CalendarEvent :=
  let startRaw := jOr (dictGetD payload "start" .jnull)
    (dictGetD payload "startAt" .jnull)
  if !truthy startRaw then
    .error (.valueError "Calendar event payload missing start timestamp")
  else
    match parse_timestamp fromiso startRaw with
    | .error e => .error e
    | .ok startsAt =>
        let endRaw := jOr (dictGetD payload "end" .jnull)
          (dictGetD payload "endAt" .jnull)
        let endsAtE : Except PyErr (Option PyDatetime) :=
          if !truthy endRaw then .ok none
          else
            match parse_timestamp fromiso endRaw with
            | .error e => .error e
            | .ok dt => .ok (some dt)
        match endsAtE with
        | .error e => .error e
        | .ok endsAt =>
            .ok { id := pyStr (dictGetD payload "id" (.jstr ""))
                  title := pyStr (dictGetD payload "title" (.jstr ""))
                  starts_at := startsAt
                  ends_at := endsAt }

/-- `CalendarEvent.to_summary`. -/
def CalendarEvent.to_summary (e : CalendarEvent) : JValue :=
  .jobj [("id", .jstr e.id), ("title", .jstr e.title),
    ("starts_at", .jstr e.starts_at.iso),
    ("ends_at", match e.ends_at with | some d => .jstr d.iso | none => .jnull)]

/-- `transport.py::_find_method_response`: the first batch entry that is
truthy and whose first element equals `name`. -/
def find_method_response (responses : List JValue) (name : String) :
    Option JValue :=
  match responses with
  | [] => none
  | r :: rest =>
      if truthy r && jstrEq (match r with
          | .jarr (x :: _) => x
          | _ => .jnull) name then some r
      else find_method_response rest name

/-- Unpacking `_, data, _ = entry`: Python raises `ValueError` unless the
entry is a sequence of exactly three elements. -/
def unpack3 (entry : JValue) : Except PyErr (JValue × JValue × JValue) :=
  match entry with
  | .jarr [a, b, c] => .ok (a, b, c)
  | _ => .error (.valueError "not enough values to unpack (expected 3)")

/-- `payload.get("methodResponses", [])` as a list of entries. -/
def methodResponsesOf (payload : JValue) : List JValue :=
  jarrElems (dictGetD payload "methodResponses" (.jarr []))

/-- `JMAPTransport._parse_messages`: flatten the `Email/get` items into raw
message dicts, defaulting absent optional fields. -/
def parse_messages (payload : JValue) : Except PyErr (List JValue) :=
  match find_method_response (methodResponsesOf payload) "Email/get" with
  | none => .error (.transport (TransportErr.basic
      "Email/get response missing from JMAP payload"))
  | some entry =>
      match unpack3 entry with
      | .error e => .error e
      | .ok (_, data, _) =>
          let items := jarrElems (dictGetD data "list" (.jarr []))
          .ok (items.map (fun item => .jobj [
            ("id", dictGetD item "id" .jnull),
            ("subject", dictGetD item "subject" (.jstr "")),
            ("snippet", dictGetD item "preview" (.jstr "")),
            ("received_at", dictGetD item "receivedAt" .jnull)]))

/-- `JMAPTransport._parse_contacts`. -/
def parse_contacts (payload : JValue) : Except PyErr (List JValue) :=
  match find_method_response (methodResponsesOf payload) "Contact/get" with
  | none => .error (.transport (TransportErr.basic
      "Contact/get response missing from JMAP payload"))
  | some entry =>
      match unpack3 entry with
      | .error e => .error e
      | .ok (_, data, _) =>
          let items := jarrElems (dictGetD data "list" (.jarr []))
          .ok (items.map (fun item => .jobj [
            ("id", dictGetD item "id" .jnull),
            ("name", dictGetD item "name" (.jstr "")),
            ("emails", dictGetD item "emails" (.jarr []))]))

/-- `JMAPTransport._parse_events`. -/
def parse_events (payload : JValue) : Except PyErr (List JValue) :=
  match find_method_response (methodResponsesOf payload) "CalendarEvent/get" with
  | none => .error (.transport (TransportErr.basic
      "CalendarEvent/get response missing from JMAP payload"))
  | some entry =>
      match unpack3 entry with
      | .error e => .error e
      | .ok (_, data, _) =>
          let items := jarrElems (dictGetD data "list" (.jarr []))
          .ok (items.map (fun item => .jobj [
            ("id", dictGetD item "id" .jnull),
            ("title", dictGetD item "title" (.jstr "")),
            ("start", dictGetD item "start" .jnull),
            ("end", dictGetD item "end" .jnull)]))

/-- The per-item flattening of `_parse_message_search_response`: sender from
the first `from` entry, read state from the two spellings of the seen
keyword, primary mailbox as the first `mailboxIds` key. -/
def searchMessageItem (item : JValue) : JValue :=
  let senderField := dictGetD item "from" (.jarr [])
  let sender : JValue :=
    if truthy senderField then
      match senderField with
      | .jarr (first :: _) => dictGetD first "email" (.jstr "")
      | _ => .jstr ""
    else .jstr ""
  let keywords := dictGetD item "keywords" (.jobj [])
  let isRead := (dictGet keywords "$seen").isSome ||
    (dictGet keywords "\\Seen").isSome
  let mailboxIds := dictGetD item "mailboxIds" (.jobj [])
  let primaryMailbox : JValue :=
    if truthy mailboxIds then
      match jkeys mailboxIds with
      | k :: _ => .jstr k
      | [] => .jnull
    else .jnull
  .jobj [("id", dictGetD item "id" .jnull),
    ("subject", dictGetD item "subject" (.jstr "")),
    ("sender", sender),
    ("snippet", dictGetD item "preview" (.jstr "")),
    ("received_at", dictGetD item "receivedAt" .jnull),
    ("read", .jbool isRead),
    ("has_attachment", dictGetD item "hasAttachment" (.jbool false)),
    ("mailbox", primaryMailbox)]

/-- `JMAPTransport._parse_message_search_response`: pagination metadata from
the `Email/query` step plus the flattened `Email/get` items; the result
always carries the `can_calculate_changes` key. -/
def parse_message_search_response (payload : JValue) : Except PyErr JValue :=
  match find_method_response (methodResponsesOf payload) "Email/query" with
  | none => .error (.transport (TransportErr.basic
      "Email/query response missing from JMAP payload"))
  | some queryEntry =>
      match unpack3 queryEntry with
      | .error e => .error e
      | .ok (_, queryData, _) =>
          match find_method_response (methodResponsesOf payload) "Email/get" with
          | none => .error (.transport (TransportErr.basic
              "Email/get response missing from JMAP payload"))
          | some getEntry =>
              match unpack3 getEntry with
              | .error e => .error e
              | .ok (_, getData, _) =>
                  let items := jarrElems (dictGetD getData "list" (.jarr []))
                  .ok (.jobj [
                    ("messages", .jarr (items.map searchMessageItem)),
                    ("total", dictGetD queryData "total" .jnull),
                    ("position", dictGetD queryData "position" (.jnum 0)),
                    ("limit", dictGetD queryData "limit" .jnull),
                    ("can_calculate_changes",
                      dictGetD queryData "canCalculateChanges" (.jbool false))])

/-- `[addr.get("email", "") for addr in (addr_list or [])]`. -/
def extract_addresses (addrList : JValue) : JValue :=
  .jarr ((jarrElems (jOr addrList (.jarr []))).map
    (fun addr => dictGetD addr "email" (.jstr "")))

/-- `JMAPTransport._parse_message_get_response`: an empty item list raises
the bare transport error `"Message not found"` (the default
`"TransportError"` kind); otherwise the first item is flattened. -/
def parse_message_get_response (payload : JValue) : Except PyErr JValue :=
  match find_method_response (methodResponsesOf payload) "Email/get" with
  | none => .error (.transport (TransportErr.basic
      "Email/get response missing from JMAP payload"))
  | some entry =>
      match unpack3 entry with
      | .error e => .error e
      | .ok (_, data, _) =>
          match jarrElems (dictGetD data "list" (.jarr [])) with
          | [] => .error (.transport (TransportErr.basic "Message not found"))
          | item :: _ =>
              let senderField := dictGetD item "from" (.jarr [])
              let sender : JValue :=
                if truthy senderField then
                  match senderField with
                  | .jarr (first :: _) => dictGetD first "email" (.jstr "")
                  | _ => .jstr ""
                else .jstr ""
              .ok (.jobj [
                ("id", dictGetD item "id" .jnull),
                ("subject", dictGetD item "subject" (.jstr "")),
                ("sender", sender),
                ("to", extract_addresses (dictGetD item "to" .jnull)),
                ("cc", extract_addresses (dictGetD item "cc" .jnull)),
                ("bcc", extract_addresses (dictGetD item "bcc" .jnull)),
                ("received_at", dictGetD item "receivedAt" .jnull),
                ("sent_at", dictGetD item "sentAt" .jnull),
                ("body_text", dictGetD item "textBody" .jnull),
                ("body_html", dictGetD item "htmlBody" .jnull),
                ("headers", dictGetD item "headers" .jnull),
                ("attachments", dictGetD item "attachments" .jnull)])

/-- `JMAPTransport.list_messages`: build, post, parse.  `discovery` and
`postOutcome` are the wire outcomes of the (at most one) discovery `GET` and
of the RPC `POST`. -/
def transport_list_messages (limit : Int) (st : TransportState)
    (discovery postOutcome : HttpResult) : Except PyErr (List JValue) :=
  match build_email_query limit st discovery with
  | .error e => .error e
  | .ok (_, body) =>
      match post postOutcome body with
      | .error e => .error e
      | .ok resp => parse_messages resp

/-- `JMAPTransport.list_contacts`. -/
def transport_list_contacts (limit : Int) (st : TransportState)
    (discovery postOutcome : HttpResult) : Except PyErr (List JValue) :=
  match build_contact_query limit st discovery with
  | .error e => .error e
  | .ok (_, body) =>
      match post postOutcome body with
      | .error e => .error e
      | .ok resp => parse_contacts resp

/-- `JMAPTransport.list_events`. -/
def transport_list_events (limit : Int) (st : TransportState)
    (discovery postOutcome : HttpResult) : Except PyErr (List JValue) :=
  match build_event_query limit st discovery with
  | .error e => .error e
  | .ok (_, body) =>
      match post postOutcome body with
      | .error e => .error e
      | .ok resp => parse_events resp

/-- `JMAPTransport.search_messages`. -/
def transport_search_messages (limit offset : Int) (filterObj : JValue)
    (sortField : String) (sortAscending : Bool) (st : TransportState)
    (discovery postOutcome : HttpResult) : Except PyErr JValue :=
  match build_email_search_query limit offset filterObj sortField sortAscending
      st discovery with
  | .error e => .error e
  | .ok (_, body) =>
      match post postOutcome body with
      | .error e => .error e
      | .ok resp => parse_message_search_response resp

/-- `JMAPTransport.get_message`. -/
def transport_get_message (messageId : String) (properties : List String)
    (st : TransportState) (discovery postOutcome : HttpResult) :
    Except PyErr JValue :=
  match build_message_get_query messageId properties st discovery with
  | .error e => .error e
  | .ok (_, body) =>
      match post postOutcome body with
      | .error e => .error e
      | .ok resp => parse_message_get_response resp

/-- `[Message.from_json(item) for item in live_payload]`: the first failing
item aborts the comprehension with its exception. -/
def parseAllMessages (fromiso : String → Option PyDatetime) :
    List JValue → Except PyErr (List Message)
  | [] => .ok []
  | x :: xs =>
      match Message.from_json fromiso x with
      | .error e => .error e
      | .ok m =>
          match parseAllMessages fromiso xs with
          | .error e => .error e
          | .ok ms => .ok (m :: ms)

/-- `[Contact.from_json(item) for item in live_payload]`. -/
def parseAllContacts : List JValue → Except PyErr (List Contact)
  | [] => .ok []
  | x :: xs =>
      match Contact.from_json x with
      | .error e => .error e
      | .ok c =>
          match parseAllContacts xs with
          | .error e => .error e
          | .ok cs => .ok (c :: cs)

/-- `[CalendarEvent.from_json(item) for item in live_payload]`. -/
def parseAllEvents (fromiso : String → Option PyDatetime) :
    List JValue → Except PyErr (List CalendarEvent)
  | [] => .ok []
  | x :: xs =>
      match CalendarEvent.from_json fromiso x with
      | .error e => .error e
      | .ok ev =>
          match parseAllEvents fromiso xs with
          | .error e => .error e
          | .ok evs => .ok (ev :: evs)

/-- `sorted(messages, key=lambda msg: msg.received_at, reverse=True)`:
Python's `sorted` is a stable sort, modelled by Mathlib's stable
`insertionSort`; `reverse=True` sorts by the flipped comparison, newest
first. -/
def sortMessages (msgs : List Message) : List Message :=
  @List.insertionSort Message (fun a b => b.received_at.key ≤ a.received_at.key)
    (fun _ _ => Int.decLe _ _) msgs

/-- `sorted(contacts, key=lambda contact: contact.display_name)`. -/
def sortContacts (cs : List Contact) : List Contact :=
  @List.insertionSort Contact (fun a b => a.display_name ≤ b.display_name)
    (fun _ _ => inferInstanceAs (Decidable (_ ≤ _))) cs

/-- `sorted(events, key=lambda event: event.starts_at)`. -/
def sortEvents (evs : List CalendarEvent) : List CalendarEvent :=
  @List.insertionSort CalendarEvent (fun a b => a.starts_at.key ≤ b.starts_at.key)
    (fun _ _ => Int.decLe _ _) evs

/-- The record set `FastmailClient.list_recent_messages` obtains before the
common sort-and-trim step: the parsed live payload, or the fixture
collaborator's records (`fixtures`) when the transport raises a
`FastmailTransportError` or the live payload fails to parse with
`ValueError`/`KeyError`.  Any other exception propagates. -/
def obtained_messages (fromiso : String → Option PyDatetime) (limit : Int)
    (st : TransportState) (discovery postOutcome : HttpResult)
    (fixtures : List Message) : Except PyErr (List Message) :=
  match transport_list_messages limit st discovery postOutcome with
  | .error (.transport _) => .ok fixtures
  | .error e => .error e
  | .ok payload =>
      match parseAllMessages fromiso payload with
      | .ok msgs => .ok msgs
      | .error (.valueError _) => .ok fixtures
      | .error (.keyError _) => .ok fixtures
      | .error e => .error e

/-- `FastmailClient.list_recent_messages`.  The final slice `[:limit]` is
reached only with `limit ≥ 1` (the query builder rejects `limit ≤ 0` with an
exception the listing does not catch), so `Int.toNat` coincides with the
Python slice there. -/
def list_recent_messages (fromiso : String → Option PyDatetime) (limit : Int)
    (st : TransportState) (discovery postOutcome : HttpResult)
    (fixtures : List Message) : Except PyErr (List Message) :=
  match obtained_messages fromiso limit st discovery postOutcome fixtures with
  | .error e => .error e
  | .ok msgs => .ok ((sortMessages msgs).take limit.toNat)

/-- The record set `FastmailClient.list_recent_contacts` obtains before
sorting and trimming. -/
def obtained_contacts (limit : Int) (st : TransportState)
    (discovery postOutcome : HttpResult) (fixtures : List Contact) :
    Except PyErr (List Contact) :=
  match transport_list_contacts limit st discovery postOutcome with
  | .error (.transport _) => .ok fixtures
  | .error e => .error e
  | .ok payload =>
      match parseAllContacts payload with
      | .ok cs => .ok cs
      | .error (.valueError _) => .ok fixtures
      | .error (.keyError _) => .ok fixtures
      | .error e => .error e

/-- `FastmailClient.list_recent_contacts`. -/
def list_recent_contacts (limit : Int) (st : TransportState)
    (discovery postOutcome : HttpResult) (fixtures : List Contact) :
    Except PyErr (List Contact) :=
  match obtained_contacts limit st discovery postOutcome fixtures with
  | .error e => .error e
  | .ok cs => .ok ((sortContacts cs).take limit.toNat)

/-- The record set `FastmailClient.list_upcoming_events` obtains before
sorting and trimming. -/
def obtained_events (fromiso : String → Option PyDatetime) (limit : Int)
    (st : TransportState) (discovery postOutcome : HttpResult)
    (fixtures : List CalendarEvent) : Except PyErr (List CalendarEvent) :=
  match transport_list_events limit st discovery postOutcome with
  | .error (.transport _) => .ok fixtures
  | .error e => .error e
  | .ok payload =>
      match parseAllEvents fromiso payload with
      | .ok evs => .ok evs
      | .error (.valueError _) => .ok fixtures
      | .error (.keyError _) => .ok fixtures
      | .error e => .error e

/-- `FastmailClient.list_upcoming_events`. -/
def list_upcoming_events (fromiso : String → Option PyDatetime) (limit : Int)
    (st : TransportState) (discovery postOutcome : HttpResult)
    (fixtures : List CalendarEvent) : Except PyErr (List CalendarEvent) :=
  match obtained_events fromiso limit st discovery postOutcome fixtures with
  | .error e => .error e
  | .ok evs => .ok ((sortEvents evs).take limit.toNat)

/-- `schemas/mail.py::DateRange` (field `end` is a Lean keyword, kept as
`stop`). -/
structure DateRange where
  start : Option PyDatetime := none
  stop : Option PyDatetime := none
deriving Repr, DecidableEq

/-- `schemas/mail.py::MailFilter`: a pure value object of optional
predicates. -/
structure MailFilter where
  sender : Option String := none
  subject : Option String := none
  mailbox : Option String := none
  read : Option Bool := none
  date_range : Option DateRange := none
  has_attachment : Option Bool := none
deriving Repr, DecidableEq

/-- Truthiness of an `Optional[str]` (`None` and `""` are falsy). -/
def optStrTruthy : Option String → Bool
  | some s => s != ""
  | none => false

/-- `MailFilter.to_jmap_filter`: each key is emitted only when its predicate
is set (for the string predicates: set and non-empty, per Python
truthiness); the key order follows the source. -/
def MailFilter.to_jmap_filter (f : MailFilter) : JValue :=
  .jobj (
    (match f.sender with
      | some s => if s ≠ "" then [("from", JValue.jstr s)] else []
      | none => []) ++
    (match f.subject with
      | some s => if s ≠ "" then [("subject", JValue.jstr s)] else []
      | none => []) ++
    (match f.mailbox with
      | some s => if s ≠ "" then [("inMailbox", JValue.jstr s)] else []
      | none => []) ++
    (match f.read with
      | some b => [("isUnread", JValue.jbool (!b))]
      | none => []) ++
    (match f.has_attachment with
      | some b => [("hasAttachment", JValue.jbool b)]
      | none => []) ++
    (match f.date_range with
      | some dr =>
          (match dr.start with
            | some d => [("after", JValue.jstr d.iso)]
            | none => []) ++
          (match dr.stop with
            | some d => [("before", JValue.jstr d.iso)]
            | none => [])
      | none => []))

/-- `FastmailClient.search_messages`.  On a `FastmailTransportError` the
search falls back to the plain listing reshaped into the search response
shape.  `st2`, `discovery2` and `postList` are the transport interactions of
that inner listing call (the Python transport mutates its session cache in
place; quantifying over the state the second call observes covers every
cache effect of the first call). -/
def search_messages (fromiso : String → Option PyDatetime)
    (filterObj : Option MailFilter) (limit offset : Int) (sortField : String)
    (sortAscending : Bool) (st : TransportState)
    (discovery postSearch : HttpResult) (st2 : TransportState)
    (discovery2 postList : HttpResult) (fixtures : List Message) :
    Except PyErr JValue :=
  let jmapFilter : JValue :=
    match filterObj with
    | some f => f.to_jmap_filter
    | none => .jnull
  match transport_search_messages limit offset (jOr jmapFilter (.jobj []))
      sortField sortAscending st discovery postSearch with
  | .ok result => .ok result
  | .error (.transport _) =>
      match list_recent_messages fromiso limit st2 discovery2 postList fixtures with
      | .error e => .error e
      | .ok msgs =>
          .ok (.jobj [
            ("messages", .jarr (msgs.map Message.to_summary)),
            ("total", .jnum msgs.length),
            ("position", .jnum offset),
            ("limit", .jnum limit)])
  | .error e => .error e

/-- `FastmailClient.get_message`: a caught `FastmailTransportError` is
logged and re-raised unchanged (`raise exc`), every other exception
propagates; no fallback of any kind. -/
def get_message (messageId : String) (properties : List String)
    (st : TransportState) (discovery postOutcome : HttpResult) :
    Except PyErr JValue :=
  match transport_get_message messageId properties st discovery postOutcome with
  | .ok r => .ok r
  | .error (.transport e) => .error (.transport e)
  | .error e => .error e

/-- A registered handler (server.py): the dispatcher passes the request's
parameter object through and observes the returned value or the raised
exception.  (Python expands the params dict as keyword arguments; the
handler sees exactly its contents.) -/
def Handler : Type := JValue → Except PyErr JValue

/-- `FastmailMCPServer.handle_call`: unknown names raise `KeyError`,
otherwise the handler runs on the params. -/
def handle_call (commands : List (String × Handler)) (name : JValue)
    (params : JValue) : Except PyErr JValue :=
  match commands.find? (fun kv => jstrEq name kv.1) with
  | none => .error (.keyError ("Unknown command: " ++ pyStr name))
  | some kv => kv.2 params

/-- `FastmailMCPServer.handle_request`: a falsy command name yields the
`InvalidRequest` error envelope without consulting the registry; a handler
failure of any kind is caught and mapped to an error envelope carrying the
exception's class name and message alongside the command name. -/
def handle_request (commands : List (String × Handler)) (payload : JValue) :
    JValue :=
  let commandName := dictGetD payload "command" .jnull
  if !truthy commandName then
    .jobj [("error", .jobj [("type", .jstr "InvalidRequest"),
      ("message", .jstr "Missing command name")])]
  else
    let params := jOr (dictGetD payload "params" .jnull) (.jobj [])
    match handle_call commands commandName params with
    | .ok result => .jobj [("command", commandName), ("result", result)]
    | .error e =>
        .jobj [("command", commandName),
          ("error", .jobj [("type", .jstr e.className),
            ("message", .jstr e.toStr)])]

/-- `FastmailMCPServer.register_command`, tracking the registered names in
insertion order: a duplicate name raises `ValueError` at registration
time. -/
def register_command (commands : List String) (name : String) :
    Except PyErr (List String) :=
  if commands.contains name then
    .error (.valueError ("Command '" ++ name ++ "' is already registered"))
  else .ok (commands ++ [name])

/-- Command-name constants of `commands/messages.py`. -/
def COMMAND_MESSAGES_LIST : String := "messages-list"

def COMMAND_MESSAGES_SEARCH : String := "messages-search"

def COMMAND_MESSAGES_GET : String := "messages-get"

def COMMAND_MAILBOXES_LIST : String := "mailboxes-list"

def COMMAND_MESSAGES_SEND : String := "messages-send"

/-- Command-name constant of `commands/contacts.py`. -/
def COMMAND_CONTACTS_LIST : String := "contacts-list"

/-- Command-name constant of `commands/events.py`. -/
def COMMAND_EVENTS_LIST : String := "events-list"

/-- `commands/messages.py::register`: four unconditional registrations plus
`messages-send` only when the write-enable flag
(`FASTMAIL_ENABLE_WRITE_TOOLS=true`) is set. -/
def messages_register (writeEnabled : Bool) (commands : List String) :
    Except PyErr (List String) := do
  let c1 ← register_command commands COMMAND_MESSAGES_LIST
  let c2 ← register_command c1 COMMAND_MESSAGES_SEARCH
  let c3 ← register_command c2 COMMAND_MESSAGES_GET
  let c4 ← register_command c3 COMMAND_MAILBOXES_LIST
  if writeEnabled then register_command c4 COMMAND_MESSAGES_SEND else pure c4

/-- `commands/contacts.py::register`. -/
def contacts_register (commands : List String) : Except PyErr (List String) :=
  register_command commands COMMAND_CONTACTS_LIST

/-- `commands/events.py::register`. -/
def events_register (commands : List String) : Except PyErr (List String) :=
  register_command commands COMMAND_EVENTS_LIST

/-- `commands/__init__.py::register_all`: the full registered command
surface, in registration order. -/
def register_all (writeEnabled : Bool) : Except PyErr (List String) := do
  let c1 ← messages_register writeEnabled []
  let c2 ← contacts_register c1
  events_register c2

/-- Parameters of the `messages-send` handler
(`schemas/mail.py::MessageSendRequest` fields; `cc`/`bcc` take no part in
validation or in the placeholder response; the Python field `to` is kept as
`recipients`, `to` being reserved in Lean). -/
structure SendParams where
  recipients : List String
  subject : String
  body_text : Option String := none
  body_html : Option String := none
deriving Repr, DecidableEq

/-- `MessageSendRequest.__post_init__` validation. -/
def validate_send (p : SendParams) : Except PyErr Unit :=
  if p.recipients.isEmpty then .error (.valueError "to field is required")
  else if p.subject = "" then .error (.valueError "subject is required")
  else if !optStrTruthy p.body_text && !optStrTruthy p.body_html then
    .error (.valueError "either body_text or body_html is required")
  else .ok ()

/-- `ErrorResponse.__dict__` as serialized into a command response. -/
def errorResponseDict (errorType message : String)
    (details troubleshooting : JValue) : JValue :=
  .jobj [("error_type", .jstr errorType), ("message", .jstr message),
    ("details", details), ("troubleshooting", troubleshooting)]

/-- `commands/messages.py::send_message`: with writes disabled a
`PermissionDenied` envelope; with an invalid request a `ValidationError`
envelope; otherwise the placeholder response reporting `success = false`
with an explanatory note. -/
def send_message (writeEnabled : Bool) (p : SendParams) : JValue :=
  if !writeEnabled then
    .jobj [("error", errorResponseDict "PermissionDenied"
      "Write operations are disabled" .jnull
      (.jstr "Set FASTMAIL_ENABLE_WRITE_TOOLS=true to enable message sending"))]
  else
    match validate_send p with
    | .error e =>
        .jobj [("error", errorResponseDict "ValidationError"
          ("Invalid send parameters: " ++ e.toStr)
          (.jobj [("field", .jstr "send parameters")]) .jnull)]
    | .ok _ =>
        .jobj [("message_id", .jstr "placeholder-id"),
          ("success", .jbool false),
          ("note", .jstr "Email sending not yet implemented. Placeholder response only.")]

/-! Helper lemmas. -/

/-- `Nat.toDigitsCore` never discards its accumulator, and with fuel it
pushes at least one digit. -/
theorem toDigitsCore_ne_nil (b : Nat) (fuel : Nat) :
    ∀ (n : Nat) (ds : List Char), (ds ≠ [] ∨ 0 < fuel) →
      Nat.toDigitsCore b fuel n ds ≠ [] := by
  induction fuel with
  | zero =>
      intro n ds h
      cases h with
      | inl h => simpa [Nat.toDigitsCore] using h
      | inr h => exact absurd h (by simp)
  | succ f ih =>
      intro n ds _
      simp only [Nat.toDigitsCore]
      split
      · exact List.cons_ne_nil _ _
      · exact ih _ _ (Or.inl (List.cons_ne_nil _ _))

/-- The decimal rendering of a natural number is non-empty. -/
theorem natRepr_ne_empty (m : Nat) : Nat.repr m ≠ "" := by
  intro hcontra
  have hdata : Nat.toDigits 10 m = [] := by
    have := congrArg String.data hcontra
    simpa [Nat.repr, List.asString] using this
  exact toDigitsCore_ne_nil 10 (m + 1) m [] (Or.inr (Nat.succ_pos m))
    (by simpa [Nat.toDigits] using hdata)

/-- The decimal rendering of an integer is non-empty. -/
theorem intToString_ne_empty (n : Int) : toString n ≠ "" := by
  show Int.repr n ≠ ""
  cases n with
  | ofNat m => exact natRepr_ne_empty m
  | negSucc m =>
      intro h
      have := congrArg String.data h
      simp [Int.repr, String.data_append] at this

/-- A truthy JSON value renders to a non-empty string under `str()`. -/
theorem truthy_pyStr_ne_empty (v : JValue) (h : truthy v = true) :
    pyStr v ≠ "" := by
  cases v with
  | jnull => simp [truthy] at h
  | jbool b =>
      cases b with
      | true => simp [pyStr]
      | false => simp [truthy] at h
  | jnum n => exact intToString_ne_empty n
  | jstr s => simpa [truthy] using h
  | jarr xs => simp [pyStr]
  | jobj fs => simp [pyStr]

/-- Whenever `_ensure_session` succeeds, the returned state passes the
cache-hit test (the api URL is a non-empty string and the account map is
non-empty), so later resolutions are cache hits. -/
theorem ensure_session_ok_cached (st : TransportState) (d : HttpResult)
    (st' : TransportState) (h : ensure_session st d = .ok st') :
    sessionCached st' = true := by
  unfold ensure_session at h
  by_cases hc : sessionCached st = true
  · simp only [hc, if_true] at h
    cases h
    exact hc
  · simp only [Bool.not_eq_true] at hc
    simp only [hc, Bool.false_eq_true, if_false] at h
    cases d with
    | exc msg => exact absurd h (by simp)
    | resp status body text =>
        by_cases h401 : status = 401
        · simp [h401] at h
        · simp only [h401, if_false] at h
          by_cases h400 : status ≥ 400
          · simp [h400] at h
          · simp only [h400, if_false] at h
            by_cases hmal : (!isObj (dictGetD body "primaryAccounts" (.jobj [])) ||
                !truthy ((dictGet body "apiUrl").getD .jnull)) = true
            · simp [hmal] at h
            · simp only [hmal, Bool.false_eq_true, if_false] at h
              by_cases hempty : (collectStringAccounts
                  (objFields (dictGetD body "primaryAccounts" (.jobj [])))).isEmpty = true
              · simp [hempty] at h
              · simp only [hempty, Bool.false_eq_true, if_false] at h
                cases h
                have htruthy : truthy ((dictGet body "apiUrl").getD .jnull) = true := by
                  rcases Bool.or_eq_false_iff.mp (Bool.not_eq_true _ ▸ hmal) with ⟨_, h2⟩
                  simpa using h2
                have hne := truthy_pyStr_ne_empty _ htruthy
                simp [sessionCached, hne, hempty]

/-- The message sort (received time descending) yields a list sorted by the
flipped key order. -/
theorem sortMessages_sorted (msgs : List Message) :
    (sortMessages msgs).Pairwise
      (fun a b => b.received_at.key ≤ a.received_at.key) := by
  letI instDec : DecidableRel
      (fun a b : Message => b.received_at.key ≤ a.received_at.key) :=
    fun _ _ => Int.decLe _ _
  haveI : IsTotal Message (fun a b => b.received_at.key ≤ a.received_at.key) :=
    ⟨fun _ _ => le_total _ _⟩
  haveI : IsTrans Message (fun a b => b.received_at.key ≤ a.received_at.key) :=
    ⟨fun _ _ _ h1 h2 => le_trans h2 h1⟩
  exact List.sorted_insertionSort _ msgs

/-- The message sort preserves the number of records. -/
theorem sortMessages_length (msgs : List Message) :
    (sortMessages msgs).length = msgs.length := by
  letI instDec : DecidableRel
      (fun a b : Message => b.received_at.key ≤ a.received_at.key) :=
    fun _ _ => Int.decLe _ _
  exact List.length_insertionSort _ msgs

/-- The contact sort (display name ascending) yields a list sorted by
name. -/
theorem sortContacts_sorted (cs : List Contact) :
    (sortContacts cs).Pairwise (fun a b => a.display_name ≤ b.display_name) := by
  letI instDec : DecidableRel
      (fun a b : Contact => a.display_name ≤ b.display_name) :=
    fun _ _ => inferInstanceAs (Decidable (_ ≤ _))
  haveI : IsTotal Contact (fun a b => a.display_name ≤ b.display_name) :=
    ⟨fun _ _ => le_total _ _⟩
  haveI : IsTrans Contact (fun a b => a.display_name ≤ b.display_name) :=
    ⟨fun _ _ _ h1 h2 => le_trans h1 h2⟩
  exact List.sorted_insertionSort _ cs

/-- The contact sort preserves the number of records. -/
theorem sortContacts_length (cs : List Contact) :
    (sortContacts cs).length = cs.length := by
  letI instDec : DecidableRel
      (fun a b : Contact => a.display_name ≤ b.display_name) :=
    fun _ _ => inferInstanceAs (Decidable (_ ≤ _))
  exact List.length_insertionSort _ cs

/-- The event sort (start time ascending) yields a list sorted by start
key. -/
theorem sortEvents_sorted (evs : List CalendarEvent) :
    (sortEvents evs).Pairwise (fun a b => a.starts_at.key ≤ b.starts_at.key) := by
  letI instDec : DecidableRel
      (fun a b : CalendarEvent => a.starts_at.key ≤ b.starts_at.key) :=
    fun _ _ => Int.decLe _ _
  haveI : IsTotal CalendarEvent (fun a b => a.starts_at.key ≤ b.starts_at.key) :=
    ⟨fun _ _ => le_total _ _⟩
  haveI : IsTrans CalendarEvent (fun a b => a.starts_at.key ≤ b.starts_at.key) :=
    ⟨fun _ _ _ h1 h2 => le_trans h1 h2⟩
  exact List.sorted_insertionSort _ evs

/-- The event sort preserves the number of records. -/
theorem sortEvents_length (evs : List CalendarEvent) :
    (sortEvents evs).length = evs.length := by
  letI instDec : DecidableRel
      (fun a b : CalendarEvent => a.starts_at.key ≤ b.starts_at.key) :=
    fun _ _ => Int.decLe _ _
  exact List.length_insertionSort _ evs

/-! Claim theorems. -/

/-- C3: for every `limit ≤ 0` passed to any listing or search query builder
(email list, email search, contact list, event list, mailbox list),
construction fails with the validation failure (`ValueError("limit must be
positive")`, the code's validation error) before any network call is
attempted: the result is this error for every transport state and every
possible discovery outcome — including a connection failure — so neither
session discovery nor any other network interaction is consulted. -/
theorem C3_builders_validate_limit_before_network (limit : Int)
    (hlim : limit ≤ 0) (st : TransportState) (discovery : HttpResult)
    (offset : Int) (filterObj : JValue) (sortField : String)
    (sortAscending : Bool) :
    build_email_query limit st discovery =
      .error (.valueError "limit must be positive") ∧
    build_email_search_query limit offset filterObj sortField sortAscending
        st discovery = .error (.valueError "limit must be positive") ∧
    build_contact_query limit st discovery =
      .error (.valueError "limit must be positive") ∧
    build_event_query limit st discovery =
      .error (.valueError "limit must be positive") ∧
    build_mailbox_query limit offset st discovery =
      .error (.valueError "limit must be positive") := by
  unfold build_email_query build_email_search_query build_contact_query
    build_event_query build_mailbox_query
  simp [hlim]

/-- Witness for C3 at `limit = 0` with an unreachable network (the discovery
outcome is a connection failure, which a builder that validated late would
surface as a network error instead). -/
theorem C3_builders_validate_limit_before_network_witness :
    build_email_query 0 freshTransport (.exc "connection refused") =
      .error (.valueError "limit must be positive") ∧
    build_email_search_query 0 0 (.jobj []) "receivedAt" false freshTransport
        (.exc "connection refused") =
      .error (.valueError "limit must be positive") ∧
    build_contact_query 0 freshTransport (.exc "connection refused") =
      .error (.valueError "limit must be positive") ∧
    build_event_query 0 freshTransport (.exc "connection refused") =
      .error (.valueError "limit must be positive") ∧
    build_mailbox_query 0 0 freshTransport (.exc "connection refused") =
      .error (.valueError "limit must be positive") :=
  C3_builders_validate_limit_before_network 0 (by decide) freshTransport
    (.exc "connection refused") 0 (.jobj []) "receivedAt" false

/-- C7: converting a `MailFilter` with `mailbox="INBOX"`, `sender="a@b.com"`,
`read=true` to the RPC filter object yields exactly the keys
`from="a@b.com"`, `inMailbox="INBOX"`, `isUnread=false`, and every key for an
unset predicate (`subject`, `hasAttachment`, `after`, `before`) is entirely
absent from the filter object. -/
theorem C7_filter_projection :
    MailFilter.to_jmap_filter
        { sender := some "a@b.com", mailbox := some "INBOX", read := some true } =
      .jobj [("from", .jstr "a@b.com"), ("inMailbox", .jstr "INBOX"),
        ("isUnread", .jbool false)] ∧
    jkeys (MailFilter.to_jmap_filter
        { sender := some "a@b.com", mailbox := some "INBOX", read := some true }) =
      ["from", "inMailbox", "isUnread"] ∧
    dictGet (MailFilter.to_jmap_filter
        { sender := some "a@b.com", mailbox := some "INBOX", read := some true })
      "subject" = none ∧
    dictGet (MailFilter.to_jmap_filter
        { sender := some "a@b.com", mailbox := some "INBOX", read := some true })
      "hasAttachment" = none ∧
    dictGet (MailFilter.to_jmap_filter
        { sender := some "a@b.com", mailbox := some "INBOX", read := some true })
      "after" = none ∧
    dictGet (MailFilter.to_jmap_filter
        { sender := some "a@b.com", mailbox := some "INBOX", read := some true })
      "before" = none :=
  ⟨rfl, rfl, rfl, rfl, rfl, rfl⟩

/-- C2 counterexample: the claim says any status ≥ 400 other than 401 fails
with a *generic ProtocolError*, distinct from the `NetworkError` used for
connectivity failures.  In the code a status-500 discovery response raises
`FastmailTransportError.network_error` — its kind tag is `"NetworkError"`,
the very tag used for connectivity failures, and not the generic
`"TransportError"` tag that the code's generic (protocol-shaped) failures
carry. -/
theorem C2_counterexample :
    errTypeOf (ensure_session freshTransport (.resp 500 (.jobj []) "")) =
      some "NetworkError" ∧
    errTypeOf (ensure_session freshTransport
        (.resp 200 (.jobj []) "")) = some "TransportError" ∧
    "NetworkError" ≠ "TransportError" :=
  ⟨rfl, rfl, by decide⟩

/-- C2 (amended): during session discovery on an unresolved transport,
`resolve()` fails with `NetworkError` for every connectivity/timeout
failure, with `AuthenticationError` for a 401 response, with `NetworkError`
(not a distinct protocol error) for any other status ≥ 400, and with the
generic transport error for a response body missing the API endpoint field
or lacking a non-empty mapping of (string-valued) primary accounts; on
success the api URL and the capability-to-account mapping are cached and the
state passes the cache-hit test. -/
theorem C2_session_resolution_classification (st : TransportState)
    (hfresh : sessionCached st = false) :
    (∀ msg, ensure_session st (.exc msg) =
      .error (.transport (TransportErr.networkError
        ("Failed to obtain JMAP session: " ++ msg)))) ∧
    (∀ body text, ensure_session st (.resp 401 body text) =
      .error (.transport (TransportErr.authError
        "Authentication failed (status 401). Check credentials."))) ∧
    (∀ status body text, 400 ≤ status → status ≠ 401 →
      ensure_session st (.resp status body text) =
        .error (.transport (TransportErr.networkError
          ("JMAP session discovery failed with status " ++ toString status)))) ∧
    (∀ status body text, status < 400 →
      (!isObj (dictGetD body "primaryAccounts" (.jobj [])) ||
        !truthy ((dictGet body "apiUrl").getD .jnull)) = true →
      ensure_session st (.resp status body text) =
        .error (.transport (TransportErr.basic
          "Unable to locate JMAP account information in session"))) ∧
    (∀ status body text, status < 400 →
      (!isObj (dictGetD body "primaryAccounts" (.jobj [])) ||
        !truthy ((dictGet body "apiUrl").getD .jnull)) = false →
      (collectStringAccounts
        (objFields (dictGetD body "primaryAccounts" (.jobj [])))).isEmpty = true →
      ensure_session st (.resp status body text) =
        .error (.transport (TransportErr.basic
          "No JMAP accounts available for current credentials"))) ∧
    (∀ status body text, status < 400 →
      (!isObj (dictGetD body "primaryAccounts" (.jobj [])) ||
        !truthy ((dictGet body "apiUrl").getD .jnull)) = false →
      (collectStringAccounts
        (objFields (dictGetD body "primaryAccounts" (.jobj [])))).isEmpty = false →
      ensure_session st (.resp status body text) =
        .ok { apiUrl := some (pyStr ((dictGet body "apiUrl").getD .jnull))
              accountIds := some (collectStringAccounts
                (objFields (dictGetD body "primaryAccounts" (.jobj [])))) } ∧
      sessionCached
        { apiUrl := some (pyStr ((dictGet body "apiUrl").getD .jnull))
          accountIds := some (collectStringAccounts
            (objFields (dictGetD body "primaryAccounts" (.jobj [])))) } = true) := by
  refine ⟨?_, ?_, ?_, ?_, ?_, ?_⟩
  · intro msg
    unfold ensure_session
    simp [hfresh]
  · intro body text
    unfold ensure_session
    simp only [hfresh, Bool.false_eq_true, if_false]
    rfl
  · intro status body text h400 h401
    unfold ensure_session
    simp [hfresh, h401, h400]
  · intro status body text hlt hmal
    have h401 : status ≠ 401 := by omega
    have h400 : ¬ status ≥ 400 := by omega
    unfold ensure_session
    simp [hfresh, h401, h400, hmal]
  · intro status body text hlt hmal hempty
    have h401 : status ≠ 401 := by omega
    have h400 : ¬ status ≥ 400 := by omega
    unfold ensure_session
    simp [hfresh, h401, h400, hmal, hempty]
  · intro status body text hlt hmal hempty
    have h401 : status ≠ 401 := by omega
    have h400 : ¬ status ≥ 400 := by omega
    have hok : ensure_session st (.resp status body text) =
        .ok { apiUrl := some (pyStr ((dictGet body "apiUrl").getD .jnull))
              accountIds := some (collectStringAccounts
                (objFields (dictGetD body "primaryAccounts" (.jobj [])))) } := by
      unfold ensure_session
      simp [hfresh, h401, h400, hmal, hempty]
    exact ⟨hok, ensure_session_ok_cached _ _ _ hok⟩

/-- Witness for C2 (amended), one concrete scenario per branch: a connection
failure, a 401, a 503, a body with no account information, a body whose
primary-account map has no string-valued entries, and a well-formed
session. -/
theorem C2_session_resolution_classification_witness :
    ensure_session freshTransport (.exc "connection timed out") =
      .error (.transport (TransportErr.networkError
        "Failed to obtain JMAP session: connection timed out")) ∧
    ensure_session freshTransport (.resp 401 (.jobj []) "") =
      .error (.transport (TransportErr.authError
        "Authentication failed (status 401). Check credentials.")) ∧
    ensure_session freshTransport (.resp 503 (.jobj []) "") =
      .error (.transport (TransportErr.networkError
        "JMAP session discovery failed with status 503")) ∧
    ensure_session freshTransport (.resp 200 (.jobj []) "") =
      .error (.transport (TransportErr.basic
        "Unable to locate JMAP account information in session")) ∧
    ensure_session freshTransport (.resp 200
        (.jobj [("apiUrl", .jstr "https://api.fastmail.com/jmap/api/"),
          ("primaryAccounts", .jobj [("urn:ietf:params:jmap:mail", .jnum 7)])]) "") =
      .error (.transport (TransportErr.basic
        "No JMAP accounts available for current credentials")) ∧
    (ensure_session freshTransport (.resp 200
        (.jobj [("apiUrl", .jstr "https://api.fastmail.com/jmap/api/"),
          ("primaryAccounts",
            .jobj [("urn:ietf:params:jmap:mail", .jstr "u123")])]) "") =
      .ok { apiUrl := some (pyStr ((dictGet
              (.jobj [("apiUrl", .jstr "https://api.fastmail.com/jmap/api/"),
                ("primaryAccounts",
                  .jobj [("urn:ietf:params:jmap:mail", .jstr "u123")])])
              "apiUrl").getD .jnull))
            accountIds := some (collectStringAccounts (objFields (dictGetD
              (.jobj [("apiUrl", .jstr "https://api.fastmail.com/jmap/api/"),
                ("primaryAccounts",
                  .jobj [("urn:ietf:params:jmap:mail", .jstr "u123")])])
              "primaryAccounts" (.jobj [])))) } ∧
      sessionCached
        { apiUrl := some (pyStr ((dictGet
            (.jobj [("apiUrl", .jstr "https://api.fastmail.com/jmap/api/"),
              ("primaryAccounts",
                .jobj [("urn:ietf:params:jmap:mail", .jstr "u123")])])
            "apiUrl").getD .jnull))
          accountIds := some (collectStringAccounts (objFields (dictGetD
            (.jobj [("apiUrl", .jstr "https://api.fastmail.com/jmap/api/"),
              ("primaryAccounts",
                .jobj [("urn:ietf:params:jmap:mail", .jstr "u123")])])
            "primaryAccounts" (.jobj [])))) } = true) :=
  ⟨(C2_session_resolution_classification freshTransport rfl).1 "connection timed out",
    (C2_session_resolution_classification freshTransport rfl).2.1 (.jobj []) "",
    (C2_session_resolution_classification freshTransport rfl).2.2.1 503 (.jobj []) ""
      (by decide) (by decide),
    (C2_session_resolution_classification freshTransport rfl).2.2.2.1 200 (.jobj []) ""
      (by decide) rfl,
    (C2_session_resolution_classification freshTransport rfl).2.2.2.2.1 200
      (.jobj [("apiUrl", .jstr "https://api.fastmail.com/jmap/api/"),
        ("primaryAccounts", .jobj [("urn:ietf:params:jmap:mail", .jnum 7)])]) ""
      (by decide) rfl rfl,
    (C2_session_resolution_classification freshTransport rfl).2.2.2.2.2 200
      (.jobj [("apiUrl", .jstr "https://api.fastmail.com/jmap/api/"),
        ("primaryAccounts", .jobj [("urn:ietf:params:jmap:mail", .jstr "u123")])]) ""
      (by decide) rfl rfl⟩

/-- C6: resolving the session twice on the same transport instance without
mutating credentials issues exactly one discovery request: after a first
successful resolution the state passes the cache-hit test, and a second
resolution returns the cached session unchanged for *every* possible second
discovery outcome — including a dead network — i.e. without any network
round-trip. -/
theorem C6_session_resolution_idempotent (d : HttpResult)
    (st' : TransportState) (h : ensure_session freshTransport d = .ok st') :
    sessionCached st' = true ∧
    ∀ d2, ensure_session st' d2 = .ok st' := by
  have hc := ensure_session_ok_cached _ _ _ h
  refine ⟨hc, fun d2 => ?_⟩
  unfold ensure_session
  simp [hc]

/-- Witness for C6: a concrete successful first resolution, after which a
second resolution succeeds identically even though the network is down. -/
theorem C6_session_resolution_idempotent_witness :
    sessionCached
      { apiUrl := some "https://api.fastmail.com/jmap/api/"
        accountIds := some [("urn:ietf:params:jmap:mail", "u123")] } = true ∧
    ∀ d2, ensure_session
        { apiUrl := some "https://api.fastmail.com/jmap/api/"
          accountIds := some [("urn:ietf:params:jmap:mail", "u123")] } d2 =
      .ok { apiUrl := some "https://api.fastmail.com/jmap/api/"
            accountIds := some [("urn:ietf:params:jmap:mail", "u123")] } :=
  C6_session_resolution_idempotent
    (.resp 200 (.jobj [("apiUrl", .jstr "https://api.fastmail.com/jmap/api/"),
      ("primaryAccounts", .jobj [("urn:ietf:params:jmap:mail", .jstr "u123")])]) "")
    { apiUrl := some "https://api.fastmail.com/jmap/api/"
      accountIds := some [("urn:ietf:params:jmap:mail", "u123")] }
    rfl

/-- C5 counterexample: the claim says an empty item list on get-by-id is
propagated as `NotFound`.  At a concrete batch response whose `Email/get`
entry carries an empty list, the code raises the bare
`FastmailTransportError("Message not found")`, whose kind tag is the generic
`"TransportError"` — the same tag a missing `Email/get` entry (a parse
error) carries — and no `NotFound` kind exists anywhere in the code. -/
theorem C5_counterexample :
    parse_message_get_response
        (.jobj [("methodResponses", .jarr [.jarr [.jstr "Email/get",
          .jobj [("list", .jarr [])], .jstr "get"]])]) =
      .error (.transport { message := "Message not found"
                           errorType := "TransportError"
                           troubleshooting := none }) ∧
    errTypeOf (parse_message_get_response
        (.jobj [("methodResponses", .jarr [.jarr [.jstr "Email/get",
          .jobj [("list", .jarr [])], .jstr "get"]])])) ≠ some "NotFound" :=
  ⟨rfl, by decide⟩

/-- C5 (amended): an empty item list on the get-by-id response is a
not-found condition reported as the transport error `"Message not found"`
with the generic `"TransportError"` kind tag (not a distinct `NotFound`
kind; it is distinguishable from a parse error only by its message), and the
facade's `get_message` returns exactly what the transport returns — every
transport failure is re-raised unchanged and no fixture fallback exists. -/
theorem C5_get_by_id_not_found_and_passthrough :
    (∀ payload entry a data c,
      find_method_response (methodResponsesOf payload) "Email/get" = some entry →
      unpack3 entry = .ok (a, data, c) →
      jarrElems (dictGetD data "list" (.jarr [])) = [] →
      parse_message_get_response payload =
        .error (.transport (TransportErr.basic "Message not found"))) ∧
    (∀ messageId properties st discovery postOutcome,
      get_message messageId properties st discovery postOutcome =
        transport_get_message messageId properties st discovery postOutcome) := by
  constructor
  · intro payload entry a data c hfind hunpack hempty
    simp only [parse_message_get_response, hfind, hunpack, hempty]
  · intro messageId properties st discovery postOutcome
    unfold get_message
    cases transport_get_message messageId properties st discovery postOutcome with
    | ok r => rfl
    | error e => cases e <;> rfl

/-- Witness for C5 (amended): the not-found branch at a concrete empty-list
response, and pass-through at a concrete failing get (dead network, a
transport failure that reaches the caller unchanged). -/
theorem C5_get_by_id_not_found_and_passthrough_witness :
    parse_message_get_response
        (.jobj [("methodResponses", .jarr [.jarr [.jstr "Email/get",
          .jobj [("accountId", .jstr "u123"), ("list", .jarr [])],
          .jstr "get"]])]) =
      .error (.transport (TransportErr.basic "Message not found")) ∧
    get_message "m1" ["id", "subject"] freshTransport (.exc "network down")
        (.exc "network down") =
      transport_get_message "m1" ["id", "subject"] freshTransport
        (.exc "network down") (.exc "network down") :=
  ⟨C5_get_by_id_not_found_and_passthrough.1
      (.jobj [("methodResponses", .jarr [.jarr [.jstr "Email/get",
        .jobj [("accountId", .jstr "u123"), ("list", .jarr [])],
        .jstr "get"]])])
      (.jarr [.jstr "Email/get",
        .jobj [("accountId", .jstr "u123"), ("list", .jarr [])], .jstr "get"])
      (.jstr "Email/get")
      (.jobj [("accountId", .jstr "u123"), ("list", .jarr [])])
      (.jstr "get") rfl rfl rfl,
    C5_get_by_id_not_found_and_passthrough.2 "m1" ["id", "subject"]
      freshTransport (.exc "network down") (.exc "network down")⟩

/-- C1: for every listing call on the client facade
(`list_recent_messages`, `list_recent_contacts`, `list_upcoming_events`), if
the transport raises a transport-level error (`FastmailTransportError`), or
if the records it returns are structurally invalid (the per-record parser
raises `ValueError` — missing required field or unparsable timestamp — or
`KeyError`), the facade substitutes the fixture collaborator's records and
returns normally (`Except.ok` with the sorted, trimmed fixtures): such a
listing call never raises, it only returns degraded data. -/
theorem C1_listing_fallback (fromiso : String → Option PyDatetime)
    (limit : Int) (st : TransportState) (discovery postOutcome : HttpResult)
    (fixturesM : List Message) (fixturesC : List Contact)
    (fixturesE : List CalendarEvent) :
    (∀ e, transport_list_messages limit st discovery postOutcome =
        .error (.transport e) →
      list_recent_messages fromiso limit st discovery postOutcome fixturesM =
        .ok ((sortMessages fixturesM).take limit.toNat)) ∧
    (∀ payload m,
      transport_list_messages limit st discovery postOutcome = .ok payload →
      (parseAllMessages fromiso payload = .error (.valueError m) ∨
        parseAllMessages fromiso payload = .error (.keyError m)) →
      list_recent_messages fromiso limit st discovery postOutcome fixturesM =
        .ok ((sortMessages fixturesM).take limit.toNat)) ∧
    (∀ e, transport_list_contacts limit st discovery postOutcome =
        .error (.transport e) →
      list_recent_contacts limit st discovery postOutcome fixturesC =
        .ok ((sortContacts fixturesC).take limit.toNat)) ∧
    (∀ payload m,
      transport_list_contacts limit st discovery postOutcome = .ok payload →
      (parseAllContacts payload = .error (.valueError m) ∨
        parseAllContacts payload = .error (.keyError m)) →
      list_recent_contacts limit st discovery postOutcome fixturesC =
        .ok ((sortContacts fixturesC).take limit.toNat)) ∧
    (∀ e, transport_list_events limit st discovery postOutcome =
        .error (.transport e) →
      list_upcoming_events fromiso limit st discovery postOutcome fixturesE =
        .ok ((sortEvents fixturesE).take limit.toNat)) ∧
    (∀ payload m,
      transport_list_events limit st discovery postOutcome = .ok payload →
      (parseAllEvents fromiso payload = .error (.valueError m) ∨
        parseAllEvents fromiso payload = .error (.keyError m)) →
      list_upcoming_events fromiso limit st discovery postOutcome fixturesE =
        .ok ((sortEvents fixturesE).take limit.toNat)) := by
  refine ⟨?_, ?_, ?_, ?_, ?_, ?_⟩
  · intro e h
    simp only [list_recent_messages, obtained_messages, h]
  · intro payload m h hparse
    cases hparse with
    | inl hp => simp only [list_recent_messages, obtained_messages, h, hp]
    | inr hp => simp only [list_recent_messages, obtained_messages, h, hp]
  · intro e h
    simp only [list_recent_contacts, obtained_contacts, h]
  · intro payload m h hparse
    cases hparse with
    | inl hp => simp only [list_recent_contacts, obtained_contacts, h, hp]
    | inr hp => simp only [list_recent_contacts, obtained_contacts, h, hp]
  · intro e h
    simp only [list_upcoming_events, obtained_events, h]
  · intro payload m h hparse
    cases hparse with
    | inl hp => simp only [list_upcoming_events, obtained_events, h, hp]
    | inr hp => simp only [list_upcoming_events, obtained_events, h, hp]

/-- Witness for C1: a discovery that returns 401 makes each listing call
fall back to its fixture records and return normally, and a live payload
whose record lacks a parsable timestamp does the same for messages. -/
theorem C1_listing_fallback_witness :
    list_recent_messages (fun _ => none) 5 freshTransport
        (.resp 401 (.jobj []) "") (.exc "unreached")
        [{ id := "m1", subject := "Hello", snippet := "Hi",
           received_at := { iso := "2024-01-01T00:00:00", key := 100 } }] =
      .ok ((sortMessages
        [{ id := "m1", subject := "Hello", snippet := "Hi",
           received_at := { iso := "2024-01-01T00:00:00", key := 100 } }]).take
        (5 : Int).toNat) ∧
    list_recent_messages (fun _ => none) 5 freshTransport
        (.resp 200 (.jobj [("apiUrl", .jstr "https://api.fastmail.com/jmap/api/"),
          ("primaryAccounts", .jobj [("urn:ietf:params:jmap:mail", .jstr "u1")])]) "")
        (.resp 200 (.jobj [("methodResponses", .jarr [.jarr [.jstr "Email/get",
          .jobj [("list", .jarr [.jobj [("id", .jstr "x")]])], .jstr "b"]])]) "")
        [{ id := "m1", subject := "Hello", snippet := "Hi",
           received_at := { iso := "2024-01-01T00:00:00", key := 100 } }] =
      .ok ((sortMessages
        [{ id := "m1", subject := "Hello", snippet := "Hi",
           received_at := { iso := "2024-01-01T00:00:00", key := 100 } }]).take
        (5 : Int).toNat) ∧
    list_recent_contacts 5 freshTransport (.resp 401 (.jobj []) "")
        (.exc "unreached")
        [{ id := "c1", display_name := "Ada", email := some "ada@example.com" }] =
      .ok ((sortContacts
        [{ id := "c1", display_name := "Ada",
           email := some "ada@example.com" }]).take (5 : Int).toNat) ∧
    list_upcoming_events (fun _ => none) 5 freshTransport
        (.resp 401 (.jobj []) "") (.exc "unreached")
        [{ id := "e1", title := "Standup",
           starts_at := { iso := "2024-01-02T09:00:00", key := 200 },
           ends_at := none }] =
      .ok ((sortEvents
        [{ id := "e1", title := "Standup",
           starts_at := { iso := "2024-01-02T09:00:00", key := 200 },
           ends_at := none }]).take (5 : Int).toNat) :=
  ⟨(C1_listing_fallback (fun _ => none) 5 freshTransport
      (.resp 401 (.jobj []) "") (.exc "unreached")
      [{ id := "m1", subject := "Hello", snippet := "Hi",
         received_at := { iso := "2024-01-01T00:00:00", key := 100 } }]
      [{ id := "c1", display_name := "Ada", email := some "ada@example.com" }]
      [{ id := "e1", title := "Standup",
         starts_at := { iso := "2024-01-02T09:00:00", key := 200 },
         ends_at := none }]).1
      (TransportErr.authError "Authentication failed (status 401). Check credentials.")
      rfl,
    (C1_listing_fallback (fun _ => none) 5 freshTransport
      (.resp 200 (.jobj [("apiUrl", .jstr "https://api.fastmail.com/jmap/api/"),
        ("primaryAccounts", .jobj [("urn:ietf:params:jmap:mail", .jstr "u1")])]) "")
      (.resp 200 (.jobj [("methodResponses", .jarr [.jarr [.jstr "Email/get",
        .jobj [("list", .jarr [.jobj [("id", .jstr "x")]])], .jstr "b"]])]) "")
      [{ id := "m1", subject := "Hello", snippet := "Hi",
         received_at := { iso := "2024-01-01T00:00:00", key := 100 } }]
      [{ id := "c1", display_name := "Ada", email := some "ada@example.com" }]
      [{ id := "e1", title := "Standup",
         starts_at := { iso := "2024-01-02T09:00:00", key := 200 },
         ends_at := none }]).2.1
      [.jobj [("id", .jstr "x"), ("subject", .jstr ""), ("snippet", .jstr ""),
        ("received_at", .jnull)]]
      "Message payload missing received_at field" rfl (Or.inl rfl),
    (C1_listing_fallback (fun _ => none) 5 freshTransport
      (.resp 401 (.jobj []) "") (.exc "unreached")
      [{ id := "m1", subject := "Hello", snippet := "Hi",
         received_at := { iso := "2024-01-01T00:00:00", key := 100 } }]
      [{ id := "c1", display_name := "Ada", email := some "ada@example.com" }]
      [{ id := "e1", title := "Standup",
         starts_at := { iso := "2024-01-02T09:00:00", key := 200 },
         ends_at := none }]).2.2.1
      (TransportErr.authError "Authentication failed (status 401). Check credentials.")
      rfl,
    (C1_listing_fallback (fun _ => none) 5 freshTransport
      (.resp 401 (.jobj []) "") (.exc "unreached")
      [{ id := "m1", subject := "Hello", snippet := "Hi",
         received_at := { iso := "2024-01-01T00:00:00", key := 100 } }]
      [{ id := "c1", display_name := "Ada", email := some "ada@example.com" }]
      [{ id := "e1", title := "Standup",
         starts_at := { iso := "2024-01-02T09:00:00", key := 200 },
         ends_at := none }]).2.2.2.2.1
      (TransportErr.authError "Authentication failed (status 401). Check credentials.")
      rfl⟩

/-- C4: for every valid record set obtained (from live transport or
fixtures), a plain listing call returns exactly the stable sort of that set
— messages by received time descending, contacts by display name ascending,
events by start time ascending — truncated to `min(limit, available)` items
(the listing returns only for `limit ≥ 1`, where the Python slice `[:limit]`
and `limit.toNat` agree). -/
theorem C4_listing_sorted_and_trimmed (fromiso : String → Option PyDatetime)
    (limit : Int) (st : TransportState) (discovery postOutcome : HttpResult)
    (fixturesM : List Message) (fixturesC : List Contact)
    (fixturesE : List CalendarEvent) :
    (∀ msgs, obtained_messages fromiso limit st discovery postOutcome
        fixturesM = .ok msgs →
      list_recent_messages fromiso limit st discovery postOutcome fixturesM =
        .ok ((sortMessages msgs).take limit.toNat) ∧
      ((sortMessages msgs).take limit.toNat).Pairwise
        (fun a b => b.received_at.key ≤ a.received_at.key) ∧
      ((sortMessages msgs).take limit.toNat).length =
        min limit.toNat msgs.length) ∧
    (∀ cs, obtained_contacts limit st discovery postOutcome fixturesC = .ok cs →
      list_recent_contacts limit st discovery postOutcome fixturesC =
        .ok ((sortContacts cs).take limit.toNat) ∧
      ((sortContacts cs).take limit.toNat).Pairwise
        (fun a b => a.display_name ≤ b.display_name) ∧
      ((sortContacts cs).take limit.toNat).length = min limit.toNat cs.length) ∧
    (∀ evs, obtained_events fromiso limit st discovery postOutcome fixturesE =
        .ok evs →
      list_upcoming_events fromiso limit st discovery postOutcome fixturesE =
        .ok ((sortEvents evs).take limit.toNat) ∧
      ((sortEvents evs).take limit.toNat).Pairwise
        (fun a b => a.starts_at.key ≤ b.starts_at.key) ∧
      ((sortEvents evs).take limit.toNat).length = min limit.toNat evs.length) := by
  refine ⟨?_, ?_, ?_⟩
  · intro msgs h
    refine ⟨by simp only [list_recent_messages, h], ?_, ?_⟩
    · exact List.Pairwise.sublist (List.take_sublist _ _) (sortMessages_sorted msgs)
    · rw [List.length_take, sortMessages_length]
  · intro cs h
    refine ⟨by simp only [list_recent_contacts, h], ?_, ?_⟩
    · exact List.Pairwise.sublist (List.take_sublist _ _) (sortContacts_sorted cs)
    · rw [List.length_take, sortContacts_length]
  · intro evs h
    refine ⟨by simp only [list_upcoming_events, h], ?_, ?_⟩
    · exact List.Pairwise.sublist (List.take_sublist _ _) (sortEvents_sorted evs)
    · rw [List.length_take, sortEvents_length]

/-- Witness for C4: with the transport down (401 discovery) each listing
obtains its three fixture records; with `limit = 2` the result is the sorted
prefix of length `min 2 3 = 2`. -/
theorem C4_listing_sorted_and_trimmed_witness :
    (list_recent_messages (fun _ => none) 2 freshTransport
        (.resp 401 (.jobj []) "") (.exc "unreached")
        [{ id := "m1", subject := "A", snippet := "", received_at := { iso := "t1", key := 100 } },
         { id := "m2", subject := "B", snippet := "", received_at := { iso := "t2", key := 300 } },
         { id := "m3", subject := "C", snippet := "", received_at := { iso := "t3", key := 200 } }] =
      .ok ((sortMessages
        [{ id := "m1", subject := "A", snippet := "", received_at := { iso := "t1", key := 100 } },
         { id := "m2", subject := "B", snippet := "", received_at := { iso := "t2", key := 300 } },
         { id := "m3", subject := "C", snippet := "", received_at := { iso := "t3", key := 200 } }]).take
        (2 : Int).toNat) ∧
      ((sortMessages
        [{ id := "m1", subject := "A", snippet := "", received_at := { iso := "t1", key := 100 } },
         { id := "m2", subject := "B", snippet := "", received_at := { iso := "t2", key := 300 } },
         { id := "m3", subject := "C", snippet := "", received_at := { iso := "t3", key := 200 } }]).take
        (2 : Int).toNat).Pairwise
        (fun a b => b.received_at.key ≤ a.received_at.key) ∧
      ((sortMessages
        [{ id := "m1", subject := "A", snippet := "", received_at := { iso := "t1", key := 100 } },
         { id := "m2", subject := "B", snippet := "", received_at := { iso := "t2", key := 300 } },
         { id := "m3", subject := "C", snippet := "", received_at := { iso := "t3", key := 200 } }]).take
        (2 : Int).toNat).length =
        min (2 : Int).toNat
          ([{ id := "m1", subject := "A", snippet := "", received_at := { iso := "t1", key := 100 } },
            { id := "m2", subject := "B", snippet := "", received_at := { iso := "t2", key := 300 } },
            { id := "m3", subject := "C", snippet := "", received_at := { iso := "t3", key := 200 } }] :
            List Message).length) ∧
    (list_recent_contacts 2 freshTransport (.resp 401 (.jobj []) "")
        (.exc "unreached")
        [{ id := "c1", display_name := "Carol", email := none },
         { id := "c2", display_name := "Ada", email := none },
         { id := "c3", display_name := "Bob", email := none }] =
      .ok ((sortContacts
        [{ id := "c1", display_name := "Carol", email := none },
         { id := "c2", display_name := "Ada", email := none },
         { id := "c3", display_name := "Bob", email := none }]).take (2 : Int).toNat) ∧
      ((sortContacts
        [{ id := "c1", display_name := "Carol", email := none },
         { id := "c2", display_name := "Ada", email := none },
         { id := "c3", display_name := "Bob", email := none }]).take
        (2 : Int).toNat).Pairwise (fun a b => a.display_name ≤ b.display_name) ∧
      ((sortContacts
        [{ id := "c1", display_name := "Carol", email := none },
         { id := "c2", display_name := "Ada", email := none },
         { id := "c3", display_name := "Bob", email := none }]).take
        (2 : Int).toNat).length =
        min (2 : Int).toNat
          ([{ id := "c1", display_name := "Carol", email := none },
            { id := "c2", display_name := "Ada", email := none },
            { id := "c3", display_name := "Bob", email := none }] :
            List Contact).length) ∧
    (list_upcoming_events (fun _ => none) 2 freshTransport
        (.resp 401 (.jobj []) "") (.exc "unreached")
        [{ id := "e1", title := "X", starts_at := { iso := "s1", key := 30 }, ends_at := none },
         { id := "e2", title := "Y", starts_at := { iso := "s2", key := 10 }, ends_at := none },
         { id := "e3", title := "Z", starts_at := { iso := "s3", key := 20 }, ends_at := none }] =
      .ok ((sortEvents
        [{ id := "e1", title := "X", starts_at := { iso := "s1", key := 30 }, ends_at := none },
         { id := "e2", title := "Y", starts_at := { iso := "s2", key := 10 }, ends_at := none },
         { id := "e3", title := "Z", starts_at := { iso := "s3", key := 20 }, ends_at := none }]).take
        (2 : Int).toNat) ∧
      ((sortEvents
        [{ id := "e1", title := "X", starts_at := { iso := "s1", key := 30 }, ends_at := none },
         { id := "e2", title := "Y", starts_at := { iso := "s2", key := 10 }, ends_at := none },
         { id := "e3", title := "Z", starts_at := { iso := "s3", key := 20 }, ends_at := none }]).take
        (2 : Int).toNat).Pairwise (fun a b => a.starts_at.key ≤ b.starts_at.key) ∧
      ((sortEvents
        [{ id := "e1", title := "X", starts_at := { iso := "s1", key := 30 }, ends_at := none },
         { id := "e2", title := "Y", starts_at := { iso := "s2", key := 10 }, ends_at := none },
         { id := "e3", title := "Z", starts_at := { iso := "s3", key := 20 }, ends_at := none }]).take
        (2 : Int).toNat).length =
        min (2 : Int).toNat
          ([{ id := "e1", title := "X", starts_at := { iso := "s1", key := 30 }, ends_at := none },
            { id := "e2", title := "Y", starts_at := { iso := "s2", key := 10 }, ends_at := none },
            { id := "e3", title := "Z", starts_at := { iso := "s3", key := 20 }, ends_at := none }] :
            List CalendarEvent).length) :=
  ⟨(C4_listing_sorted_and_trimmed (fun _ => none) 2 freshTransport
      (.resp 401 (.jobj []) "") (.exc "unreached")
      [{ id := "m1", subject := "A", snippet := "", received_at := { iso := "t1", key := 100 } },
       { id := "m2", subject := "B", snippet := "", received_at := { iso := "t2", key := 300 } },
       { id := "m3", subject := "C", snippet := "", received_at := { iso := "t3", key := 200 } }]
      [{ id := "c1", display_name := "Carol", email := none },
       { id := "c2", display_name := "Ada", email := none },
       { id := "c3", display_name := "Bob", email := none }]
      [{ id := "e1", title := "X", starts_at := { iso := "s1", key := 30 }, ends_at := none },
       { id := "e2", title := "Y", starts_at := { iso := "s2", key := 10 }, ends_at := none },
       { id := "e3", title := "Z", starts_at := { iso := "s3", key := 20 }, ends_at := none }]).1
      _ rfl,
    (C4_listing_sorted_and_trimmed (fun _ => none) 2 freshTransport
      (.resp 401 (.jobj []) "") (.exc "unreached")
      [{ id := "m1", subject := "A", snippet := "", received_at := { iso := "t1", key := 100 } },
       { id := "m2", subject := "B", snippet := "", received_at := { iso := "t2", key := 300 } },
       { id := "m3", subject := "C", snippet := "", received_at := { iso := "t3", key := 200 } }]
      [{ id := "c1", display_name := "Carol", email := none },
       { id := "c2", display_name := "Ada", email := none },
       { id := "c3", display_name := "Bob", email := none }]
      [{ id := "e1", title := "X", starts_at := { iso := "s1", key := 30 }, ends_at := none },
       { id := "e2", title := "Y", starts_at := { iso := "s2", key := 10 }, ends_at := none },
       { id := "e3", title := "Z", starts_at := { iso := "s3", key := 20 }, ends_at := none }]).2.1
      _ rfl,
    (C4_listing_sorted_and_trimmed (fun _ => none) 2 freshTransport
      (.resp 401 (.jobj []) "") (.exc "unreached")
      [{ id := "m1", subject := "A", snippet := "", received_at := { iso := "t1", key := 100 } },
       { id := "m2", subject := "B", snippet := "", received_at := { iso := "t2", key := 300 } },
       { id := "m3", subject := "C", snippet := "", received_at := { iso := "t3", key := 200 } }]
      [{ id := "c1", display_name := "Carol", email := none },
       { id := "c2", display_name := "Ada", email := none },
       { id := "c3", display_name := "Bob", email := none }]
      [{ id := "e1", title := "X", starts_at := { iso := "s1", key := 30 }, ends_at := none },
       { id := "e2", title := "Y", starts_at := { iso := "s2", key := 10 }, ends_at := none },
       { id := "e3", title := "Z", starts_at := { iso := "s3", key := 20 }, ends_at := none }]).2.2
      _ rfl⟩

/-- C8: for every request envelope lacking a `command` field,
`handle_request` returns the `InvalidRequest` error envelope — it does not
raise, and it never invokes any registered handler (the result is the same
fixed envelope for *every* registry); for every handler failure of any kind,
`handle_request` catches it and returns an error envelope carrying the
failure's kind tag (`exc.__class__.__name__`) and message alongside the
command name. -/
theorem C8_dispatcher_error_envelopes :
    (∀ (commands : List (String × Handler)) (payload : JValue),
      dictGet payload "command" = none →
      handle_request commands payload =
        .jobj [("error", .jobj [("type", .jstr "InvalidRequest"),
          ("message", .jstr "Missing command name")])]) ∧
    (∀ (commands : List (String × Handler)) (name : String) (h : Handler)
        (params : JValue) (e : PyErr),
      name ≠ "" →
      commands.find? (fun kv => jstrEq (.jstr name) kv.1) = some (name, h) →
      h (jOr params (.jobj [])) = .error e →
      handle_request commands (.jobj [("command", .jstr name),
          ("params", params)]) =
        .jobj [("command", .jstr name),
          ("error", .jobj [("type", .jstr e.className),
            ("message", .jstr e.toStr)])]) := by
  constructor
  · intro commands payload h
    unfold handle_request
    simp [dictGetD, h, truthy]
  · intro commands name h params e hname hfind herr
    have hname' : (name != "") = true := by simpa using hname
    unfold handle_request handle_call
    simp [dictGetD, dictGet, lookupField, truthy, hname', hfind, herr]

/-- Witness for C8: an envelope with no `command` field yields the
`InvalidRequest` envelope against a non-trivial registry, and a handler that
raises `ValueError("bad limit")` yields the error envelope with kind tag
`"ValueError"` and the message, alongside the command name. -/
theorem C8_dispatcher_error_envelopes_witness :
    handle_request [("boom", fun _ => .error (.valueError "bad limit"))]
        (.jobj [("params", .jobj [("limit", .jnum 3)])]) =
      .jobj [("error", .jobj [("type", .jstr "InvalidRequest"),
        ("message", .jstr "Missing command name")])] ∧
    handle_request [("boom", fun _ => .error (.valueError "bad limit"))]
        (.jobj [("command", .jstr "boom"),
          ("params", .jobj [("limit", .jnum 3)])]) =
      .jobj [("command", .jstr "boom"),
        ("error", .jobj [("type", .jstr (PyErr.valueError "bad limit").className),
          ("message", .jstr (PyErr.valueError "bad limit").toStr)])] :=
  ⟨C8_dispatcher_error_envelopes.1
      [("boom", fun _ => .error (.valueError "bad limit"))]
      (.jobj [("params", .jobj [("limit", .jnum 3)])]) rfl,
    C8_dispatcher_error_envelopes.2
      [("boom", fun _ => .error (.valueError "bad limit"))]
      "boom" (fun _ => .error (.valueError "bad limit"))
      (.jobj [("limit", .jnum 3)]) (.valueError "bad limit")
      (by decide) rfl rfl⟩

/-- C9 counterexample: the claim names the command surface `list-messages`,
`search-messages`, `get-message-by-id`, `list-mailboxes`, `list-contacts`,
`list-events`, `send-message`.  The registry built by `register_all` (write
flag set) contains none of those names: the registered names are
`messages-list`, `messages-search`, `messages-get`, `mailboxes-list`,
`messages-send`, `contacts-list`, `events-list`. -/
theorem C9_counterexample :
    register_all true = .ok ["messages-list", "messages-search",
      "messages-get", "mailboxes-list", "messages-send", "contacts-list",
      "events-list"] ∧
    (["list-messages", "search-messages", "get-message-by-id",
      "list-mailboxes", "list-contacts", "list-events", "send-message"].all
      (fun claimed => !(["messages-list", "messages-search", "messages-get",
        "mailboxes-list", "messages-send", "contacts-list",
        "events-list"].contains claimed))) = true :=
  ⟨rfl, by decide⟩

/-- C9 (amended): the registered command surface consists of
`messages-list`, `messages-search`, `messages-get`, `mailboxes-list`,
`contacts-list`, `events-list`, plus a `messages-send` command registered
only when the write-enable flag is set, whose handler (on an input passing
request validation) reports non-success with an explanatory note;
registering a name twice is a fatal error (`ValueError`) raised at
registration time. -/
theorem C9_command_surface :
    register_all false = .ok ["messages-list", "messages-search",
      "messages-get", "mailboxes-list", "contacts-list", "events-list"] ∧
    register_all true = .ok ["messages-list", "messages-search",
      "messages-get", "mailboxes-list", "messages-send", "contacts-list",
      "events-list"] ∧
    (∀ p, validate_send p = .ok () →
      dictGet (send_message true p) "success" = some (.jbool false) ∧
      dictGet (send_message true p) "note" =
        some (.jstr "Email sending not yet implemented. Placeholder response only.")) ∧
    (∀ (commands : List String) (name : String),
      commands.contains name = true →
      register_command commands name =
        .error (.valueError ("Command '" ++ name ++ "' is already registered"))) := by
  refine ⟨rfl, rfl, ?_, ?_⟩
  · intro p hv
    unfold send_message
    simp [hv, dictGet, lookupField]
  · intro commands name hmem
    unfold register_command
    have hmem' : name ∈ commands := by simpa using hmem
    simp [hmem']

/-- Witness for C9 (amended): a concrete valid send request yields the
non-success placeholder with its note, and re-registering `messages-list`
in a registry that already holds it fails with `ValueError`. -/
theorem C9_command_surface_witness :
    (dictGet (send_message true
        { recipients := ["a@b.com"], subject := "Hi", body_text := some "Hello" })
        "success" = some (.jbool false) ∧
      dictGet (send_message true
        { recipients := ["a@b.com"], subject := "Hi", body_text := some "Hello" })
        "note" =
        some (.jstr "Email sending not yet implemented. Placeholder response only.")) ∧
    register_command ["messages-list"] "messages-list" =
      .error (.valueError "Command 'messages-list' is already registered") :=
  ⟨C9_command_surface.2.2.1
      { recipients := ["a@b.com"], subject := "Hi", body_text := some "Hello" }
      rfl,
    C9_command_surface.2.2.2 ["messages-list"] "messages-list" (by decide)⟩

/-- Every flattened live-search message entry carries exactly the extended
key set. -/
theorem searchMessageItem_keys (item : JValue) :
    jkeys (searchMessageItem item) = ["id", "subject", "sender", "snippet",
      "received_at", "read", "has_attachment", "mailbox"] := rfl

/-- Every fallback message summary carries exactly the basic key set. -/
theorem to_summary_keys (m : Message) :
    jkeys (Message.to_summary m) = ["id", "subject", "snippet", "received_at"] :=
  rfl

/-- C10: when `search_messages` falls back after a transport failure, the
returned mapping reports `total` equal to the number of fallback messages
and `position` equal to the requested offset, omits the
`can_calculate_changes` key, and each fallback message carries only `id`,
`subject`, `snippet`, `received_at`; the live search path, whenever it
parses successfully, always includes the `can_calculate_changes` key and
gives each message the extended key set including `sender`, `read`,
`has_attachment` and `mailbox`. -/
theorem C10_search_fallback_shape (fromiso : String → Option PyDatetime)
    (filterObj : Option MailFilter) (limit offset : Int) (sortField : String)
    (sortAscending : Bool) (st : TransportState)
    (discovery postSearch : HttpResult) (st2 : TransportState)
    (discovery2 postList : HttpResult) (fixtures : List Message) :
    (∀ e msgs,
      transport_search_messages limit offset
          (jOr (match filterObj with
            | some f => f.to_jmap_filter
            | none => .jnull) (.jobj []))
          sortField sortAscending st discovery postSearch =
        .error (.transport e) →
      list_recent_messages fromiso limit st2 discovery2 postList fixtures =
        .ok msgs →
      search_messages fromiso filterObj limit offset sortField sortAscending
          st discovery postSearch st2 discovery2 postList fixtures =
        .ok (.jobj [("messages", .jarr (msgs.map Message.to_summary)),
          ("total", .jnum msgs.length), ("position", .jnum offset),
          ("limit", .jnum limit)]) ∧
      dictGet (.jobj [("messages", .jarr (msgs.map Message.to_summary)),
          ("total", .jnum msgs.length), ("position", .jnum offset),
          ("limit", .jnum limit)]) "can_calculate_changes" = none ∧
      ∀ m ∈ msgs, jkeys (Message.to_summary m) =
        ["id", "subject", "snippet", "received_at"]) ∧
    (∀ payload r, parse_message_search_response payload = .ok r →
      (dictGet r "can_calculate_changes").isSome = true ∧
      ∀ v, dictGet r "messages" = some v →
        ∀ item ∈ jarrElems v, jkeys item = ["id", "subject", "sender",
          "snippet", "received_at", "read", "has_attachment", "mailbox"]) := by
  constructor
  · intro e msgs hsearch hlist
    refine ⟨?_, by simp [dictGet, lookupField], fun m _ => to_summary_keys m⟩
    unfold search_messages
    simp only [hsearch, hlist]
  · intro payload r hr
    cases hq : find_method_response (methodResponsesOf payload) "Email/query" with
    | none =>
        simp only [parse_message_search_response, hq] at hr
        exact absurd hr (by simp)
    | some qEntry =>
        cases hu : unpack3 qEntry with
        | error e2 =>
            simp only [parse_message_search_response, hq, hu] at hr
            exact absurd hr (by simp)
        | ok t =>
            obtain ⟨a1, qData, c1⟩ := t
            cases hg : find_method_response (methodResponsesOf payload)
                "Email/get" with
            | none =>
                simp only [parse_message_search_response, hq, hu, hg] at hr
                exact absurd hr (by simp)
            | some gEntry =>
                cases hu2 : unpack3 gEntry with
                | error e3 =>
                    simp only [parse_message_search_response, hq, hu, hg,
                      hu2] at hr
                    exact absurd hr (by simp)
                | ok t2 =>
                    obtain ⟨a2, gData, c2⟩ := t2
                    simp only [parse_message_search_response, hq, hu, hg,
                      hu2, Except.ok.injEq] at hr
                    subst hr
                    refine ⟨by simp [dictGet, lookupField], ?_⟩
                    intro v hv item hitem
                    simp only [dictGet, lookupField, reduceIte,
                      Option.some.injEq] at hv
                    subst hv
                    simp only [jarrElems, List.mem_map] at hitem
                    obtain ⟨i, _, hi⟩ := hitem
                    rw [← hi]
                    exact searchMessageItem_keys i

/-- Witness for C10: a search whose RPC `POST` dies falls back to one
fixture message and reports `total = 1`, `position = 0`, no
`can_calculate_changes` key and only the four basic fields; a concrete live
search response parses with the `can_calculate_changes` key present and
extended message keys. -/
theorem C10_search_fallback_shape_witness :
    (search_messages (fun _ => none) none 2 0 "receivedAt" false
        freshTransport
        (.resp 200 (.jobj [("apiUrl", .jstr "https://api.fastmail.com/jmap/api/"),
          ("primaryAccounts", .jobj [("urn:ietf:params:jmap:mail", .jstr "u1")])]) "")
        (.exc "boom") freshTransport (.resp 401 (.jobj []) "")
        (.exc "unreached")
        [{ id := "m1", subject := "Hello", snippet := "Hi", received_at := { iso := "2024-01-01T00:00:00", key := 100 } }] =
      .ok (.jobj [("messages", .jarr
          (([{ id := "m1", subject := "Hello", snippet := "Hi", received_at := { iso := "2024-01-01T00:00:00", key := 100 } }] :
            List Message).map Message.to_summary)),
        ("total", .jnum
          ([{ id := "m1", subject := "Hello", snippet := "Hi", received_at := { iso := "2024-01-01T00:00:00", key := 100 } }] :
            List Message).length),
        ("position", .jnum 0), ("limit", .jnum 2)]) ∧
      dictGet (.jobj [("messages", .jarr
          (([{ id := "m1", subject := "Hello", snippet := "Hi", received_at := { iso := "2024-01-01T00:00:00", key := 100 } }] :
            List Message).map Message.to_summary)),
        ("total", .jnum
          ([{ id := "m1", subject := "Hello", snippet := "Hi", received_at := { iso := "2024-01-01T00:00:00", key := 100 } }] :
            List Message).length),
        ("position", .jnum 0), ("limit", .jnum 2)]) "can_calculate_changes" =
        none ∧
      ∀ m ∈ ([{ id := "m1", subject := "Hello", snippet := "Hi", received_at := { iso := "2024-01-01T00:00:00", key := 100 } }] :
        List Message), jkeys (Message.to_summary m) =
        ["id", "subject", "snippet", "received_at"]) ∧
    ((dictGet (.jobj [("messages", .jarr
          [searchMessageItem (.jobj [("id", .jstr "x")])]),
        ("total", .jnum 1), ("position", .jnum 0), ("limit", .jnum 2),
        ("can_calculate_changes", .jbool true)]) "can_calculate_changes").isSome
        = true ∧
      ∀ v, dictGet (.jobj [("messages", .jarr
            [searchMessageItem (.jobj [("id", .jstr "x")])]),
          ("total", .jnum 1), ("position", .jnum 0), ("limit", .jnum 2),
          ("can_calculate_changes", .jbool true)]) "messages" = some v →
        ∀ item ∈ jarrElems v, jkeys item = ["id", "subject", "sender",
          "snippet", "received_at", "read", "has_attachment", "mailbox"]) :=
  ⟨(C10_search_fallback_shape (fun _ => none) none 2 0 "receivedAt" false
      freshTransport
      (.resp 200 (.jobj [("apiUrl", .jstr "https://api.fastmail.com/jmap/api/"),
        ("primaryAccounts", .jobj [("urn:ietf:params:jmap:mail", .jstr "u1")])]) "")
      (.exc "boom") freshTransport (.resp 401 (.jobj []) "")
      (.exc "unreached")
      [{ id := "m1", subject := "Hello", snippet := "Hi", received_at := { iso := "2024-01-01T00:00:00", key := 100 } }]).1
      (TransportErr.basic "JMAP request failed: boom")
      [{ id := "m1", subject := "Hello", snippet := "Hi", received_at := { iso := "2024-01-01T00:00:00", key := 100 } }]
      rfl rfl,
    (C10_search_fallback_shape (fun _ => none) none 2 0 "receivedAt" false
      freshTransport
      (.resp 200 (.jobj [("apiUrl", .jstr "https://api.fastmail.com/jmap/api/"),
        ("primaryAccounts", .jobj [("urn:ietf:params:jmap:mail", .jstr "u1")])]) "")
      (.exc "boom") freshTransport (.resp 401 (.jobj []) "")
      (.exc "unreached")
      [{ id := "m1", subject := "Hello", snippet := "Hi", received_at := { iso := "2024-01-01T00:00:00", key := 100 } }]).2
      (.jobj [("methodResponses", .jarr [
        .jarr [.jstr "Email/query", .jobj [("total", .jnum 1),
          ("position", .jnum 0), ("limit", .jnum 2),
          ("canCalculateChanges", .jbool true)], .jstr "search"],
        .jarr [.jstr "Email/get",
          .jobj [("list", .jarr [.jobj [("id", .jstr "x")]])],
          .jstr "get"]])])
      (.jobj [("messages", .jarr [searchMessageItem (.jobj [("id", .jstr "x")])]),
        ("total", .jnum 1), ("position", .jnum 0), ("limit", .jnum 2),
        ("can_calculate_changes", .jbool true)])
      rfl⟩
